import Mathlib

/-!
Shallow embedding of the vara-web deepface-service core
(src/services/deepface-service/app), covering:

- the embedding comparison engine (`DeepFaceService.compare_embeddings`,
  embedding.py lines 455-519) and the request-level dimensionality
  validation (`CompareFacesRequest.validate_embedding_dimensions`,
  schemas.py lines 94-100);
- the multi-backend face-detection fallback (`DeepFaceService.extract_embedding`,
  embedding.py lines 319-453) and the error classification performed by the
  extract endpoint (main.py lines 218-239);
- image preprocessing: EXIF orientation normalization
  (`_normalize_exif_orientation`, embedding.py lines 214-276), dimension
  enforcement (`_enforce_dimensions`, lines 278-317) and the `validate_image`
  pipeline (lines 168-212);
- image download (`download_image`, lines 108-140).

Numeric model: Python floats are modelled by `FVal`, rational numbers
extended with a NaN element that propagates through arithmetic, mirroring
IEEE-754 NaN propagation for the operations the service performs.  Square
roots and exponentials are represented by executable rational stand-ins
(`Rat.sqrt`, a truncated Taylor series); no verified statement depends on
their value at a non-perfect-square or nonzero numeric argument - they are
only ever evaluated at perfect squares or at NaN.

The dimension-scaling arithmetic of `_enforce_dimensions` is modelled in
IEEE-754 double precision (`roundDouble`: round-to-nearest, ties to even,
on a 53-bit mantissa), because `int(dim * (target / current))` is sensitive
to the two float roundings: e.g. `int(11 * (480 / 11))` is 479, not 480.
-/

namespace VaraWeb

/-- Model of a Python float value: either an ordinary (rational) number or
NaN.  Arithmetic propagates NaN exactly as IEEE-754 does for the operations
used by the service. -/
inductive FVal where
  | nan : FVal
  | num (q : ℚ) : FVal
deriving DecidableEq, Repr

namespace FVal

/-- Float addition: NaN propagates. -/
def add : FVal → FVal → FVal
  | num a, num b => num (a + b)
  | _, _ => nan

/-- Float subtraction: NaN propagates. -/
def sub : FVal → FVal → FVal
  | num a, num b => num (a - b)
  | _, _ => nan

/-- Float multiplication: NaN propagates. -/
def mul : FVal → FVal → FVal
  | num a, num b => num (a * b)
  | _, _ => nan

/-- Float division: NaN propagates.  Division by zero yields NaN: in
IEEE-754 only 0/0 is NaN (x/0 with x nonzero is a signed infinity), but in
this service a zero denominator is always a zero vector norm, which forces
the corresponding numerator (a dot product with, or a component of, that
zero vector) to be zero as well, so the 0/0 = NaN case is the only one that
can be reached. -/
def div : FVal → FVal → FVal
  | num a, num b => if b = 0 then nan else num (a / b)
  | _, _ => nan

/-- Float negation: NaN propagates. -/
def neg : FVal → FVal
  | num a => num (-a)
  | nan => nan

/-- Float absolute value: NaN propagates. -/
def absF : FVal → FVal
  | num a => num |a|
  | nan => nan

/-- Model of `math.sqrt` / `np.sqrt` on a float value.  `Rat.sqrt` is the
rational floor square root, exact on perfect squares; every verified
statement evaluates this function only at perfect squares or at NaN.
A negative argument gives NaN as in NumPy. -/
def sqrtF : FVal → FVal
  | num q => if q < 0 then nan else num (Rat.sqrt q)
  | nan => nan

/-- Truncated Taylor series used as the executable stand-in for `exp` at
rational arguments; no verified statement depends on its numeric value. -/
def ratExp (q : ℚ) : ℚ :=
  ((List.range 20).map (fun k => q ^ k / (Nat.factorial k : ℚ))).sum

/-- Model of `np.exp`: NaN propagates; rational arguments go through the
Taylor stand-in `ratExp`. -/
def expF : FVal → FVal
  | num q => num (ratExp q)
  | nan => nan

/-- Model of the Python float comparison `a < b`: any comparison with NaN
is false. -/
def flt : FVal → FVal → Bool
  | num a, num b => decide (a < b)
  | _, _ => false

/-- Model of `np.clip(x, 0, 1)`: NaN propagates (NumPy clips NaN to NaN). -/
def clip01 : FVal → FVal
  | num q => num (max 0 (min 1 q))
  | nan => nan

end FVal

/-- Model of Python builtin `min(a, b)`: the second argument replaces the
first only when it compares strictly less, so `min(1.0, nan) = 1.0`. -/
def pyMin (a b : FVal) : FVal := if FVal.flt b a then b else a

/-- `np.dot` of two equal-length float vectors (rational components).
Vector lengths are equal in every reachable call: the request validator
rejects embeddings whose length differs from 512 before the comparison
runs (NumPy would raise a broadcast error otherwise). -/
def dotQ (a b : List ℚ) : ℚ := (List.zipWith (fun x y => x * y) a b).sum

/-- `np.linalg.norm` of a rational vector: square root of the sum of
squares. -/
def normQ (v : List ℚ) : FVal := FVal.sqrtF (.num (dotQ v v))

/-- Sum of squares of a float-valued vector (used after the per-component
division by a possibly-zero norm, where components can already be NaN). -/
def sumSqF (v : List FVal) : FVal :=
  v.foldr (fun x acc => FVal.add (FVal.mul x x) acc) (FVal.num 0)

/-- `scipy.spatial.distance.cosine emb1 emb2 = 1 - uv / sqrt(uu * vv)`
with `uv = dot(u,v)`, `uu = dot(u,u)`, `vv = dot(v,v)`.  (Recent scipy
releases additionally clip the result to the interval 0..2; no verified
statement depends on that post-processing, and NaN is preserved by it.) -/
def scipyCosine (emb1 emb2 : List ℚ) : FVal :=
  let uv := dotQ emb1 emb2
  let uu := dotQ emb1 emb1
  let vv := dotQ emb2 emb2
  FVal.sub (.num 1) (FVal.div (.num uv) (FVal.sqrtF (.num (uu * vv))))

/-- `np.linalg.norm(emb1 - emb2)`: the raw L2 distance (embedding.py
line 484). -/
def euclideanDist (emb1 emb2 : List ℚ) : FVal :=
  let d := List.zipWith (fun x y => x - y) emb1 emb2
  FVal.sqrtF (.num (dotQ d d))

/-- `emb / np.linalg.norm(emb)` (embedding.py lines 487-488): componentwise
division of a vector by its own L2 norm - an unguarded division, so a zero
vector produces NaN components. -/
def l2NormalizeF (v : List ℚ) : List FVal :=
  v.map (fun a => FVal.div (.num a) (normQ v))

/-- The `euclidean_l2` distance (embedding.py lines 485-489): the float L2
norm of the difference of the two independently unit-normalized vectors. -/
def euclideanL2Dist (emb1 emb2 : List ℚ) : FVal :=
  FVal.sqrtF (sumSqF (List.zipWith FVal.sub (l2NormalizeF emb1) (l2NormalizeF emb2)))

/-- Errors of the comparison path.  `invalidDims` is the pydantic
dimensionality rejection (schemas.py lines 94-100); `unknownMetric` is the
`ValueError` raised for an unrecognized metric string (embedding.py
line 491).  The compare-faces endpoint maps both to the INVALID_EMBEDDING
error code (main.py, `except ValueError` branch). -/
inductive CmpErr where
  | invalidDims (got : ℕ) : CmpErr
  | unknownMetric (metric : String) : CmpErr
deriving DecidableEq, Repr

/-- `CompareFacesRequest.validate_embedding_dimensions` (schemas.py lines
94-100): an embedding must have exactly 512 components. -/
def validate_embedding_dimensions (v : List ℚ) : Except CmpErr (List ℚ) :=
  if v.length ≠ 512 then .error (.invalidDims v.length) else .ok v

/-- The metric dispatch of `compare_embeddings` (embedding.py lines
479-491): three known metrics, anything else raises. -/
def computeDistance (distance_metric : String) (emb1 emb2 : List ℚ) :
    Except CmpErr FVal :=
  if distance_metric = "cosine" then .ok (scipyCosine emb1 emb2)
  else if distance_metric = "euclidean" then .ok (euclideanDist emb1 emb2)
  else if distance_metric = "euclidean_l2" then .ok (euclideanL2Dist emb1 emb2)
  else .error (.unknownMetric distance_metric)

/-- `DeepFaceService.DEFAULT_THRESHOLDS.get(distance_metric, 0.68)`
(embedding.py lines 46-50 and 495). -/
def DEFAULT_THRESHOLDS (distance_metric : String) : ℚ :=
  if distance_metric = "cosine" then 68/100
  else if distance_metric = "euclidean" then 415/100
  else if distance_metric = "euclidean_l2" then 113/100
  else 68/100

/-- The comparison results dict returned by `compare_embeddings`
(embedding.py lines 512-519). -/
structure ComparisonResult where
  is_same_person : Bool
  distance : FVal
  similarity : FVal
  confidence : FVal
  threshold_used : ℚ
  distance_metric : String
deriving DecidableEq, Repr

/-- The decision/scoring tail of `compare_embeddings` (embedding.py lines
497-519), given the already-computed distance and the resolved threshold:
`is_same_person = distance < threshold` (strict, false on NaN);
`similarity = 1 - distance` for cosine, `exp(-distance / threshold)` for
the euclidean variants, clipped to 0..1;
`confidence = min(1.0, abs(distance - threshold) / threshold)` using the
Python builtin `min`. -/
def comparison_result (distance_metric : String) (distance : FVal)
    (threshold : ℚ) : ComparisonResult :=
  let is_same_person := FVal.flt distance (.num threshold)
  let similarity :=
    if distance_metric = "cosine" then FVal.sub (.num 1) distance
    else FVal.expF (FVal.div (FVal.neg distance) (.num threshold))
  let distance_from_threshold := FVal.absF (FVal.sub distance (.num threshold))
  let confidence := pyMin (.num 1) (FVal.div distance_from_threshold (.num threshold))
  ⟨is_same_person, distance, FVal.clip01 similarity, confidence,
    threshold, distance_metric⟩

/-- `DeepFaceService.compare_embeddings` (embedding.py lines 455-519):
compute the distance for the requested metric (unknown metrics raise),
resolve the threshold (caller-supplied, else the per-metric default), then
build the result dict. -/
def compare_embeddings (embedding1 embedding2 : List ℚ)
    (distance_metric : String) (threshold : Option ℚ) :
    Except CmpErr ComparisonResult :=
  match computeDistance distance_metric embedding1 embedding2 with
  | .error e => .error e
  | .ok d =>
    let t := threshold.getD (DEFAULT_THRESHOLDS distance_metric)
    .ok (comparison_result distance_metric d t)

/-- The compare-faces operation as exposed at the request boundary
(schemas.py `CompareFacesRequest` + main.py `compare_faces`): both
embeddings pass the dimensionality validator before
`compare_embeddings` runs. -/
def compare_faces (embedding1 embedding2 : List ℚ)
    (distance_metric : String) (threshold : Option ℚ) :
    Except CmpErr ComparisonResult :=
  match validate_embedding_dimensions embedding1 with
  | .error e => .error e
  | .ok v1 =>
    match validate_embedding_dimensions embedding2 with
    | .error e => .error e
    | .ok v2 => compare_embeddings v1 v2 distance_metric threshold

/-! ### Face-detection orchestration (embedding.py `extract_embedding`) -/

/-- Bounding box of a detected face (the `facial_area` dict of a DeepFace
result entry / the `FacialArea` response schema). -/
structure FacialArea where
  x : ℤ
  y : ℤ
  w : ℤ
  h : ℤ
deriving DecidableEq, Repr

/-- One entry of the list returned by `DeepFace.represent`: an embedding
plus the optional `face_confidence` and `facial_area` keys (the code reads
both with `.get` and a default, so they are modelled as optional). -/
structure Face where
  embedding : List ℚ
  face_confidence : Option ℚ
  facial_area : Option FacialArea
deriving DecidableEq, Repr

/-- `FACE_DETECTION_CONFIDENCE` environment default "0.5" (embedding.py
line 28). -/
def FACE_DETECTION_CONFIDENCE : ℚ := 1/2

/-- The filter predicate of embedding.py lines 422-425:
`face.get("face_confidence", 0.99) >= FACE_DETECTION_CONFIDENCE`. -/
def confident_pred (f : Face) : Bool :=
  decide (FACE_DETECTION_CONFIDENCE ≤ f.face_confidence.getD (99/100))

/-- Confidence filtering with relaxed-mode fallback (embedding.py lines
421-433): keep the faces passing `confident_pred`; if that removes every
face, use the full unfiltered list instead. -/
def confident_filter (result : List Face) : List Face :=
  let confident_faces := result.filter confident_pred
  if confident_faces.isEmpty then result else confident_faces

/-- `max(confident_faces, key=lambda f: f.get("face_confidence", 0))`
(embedding.py line 439): Python max scans left to right and replaces the
current best only on a strictly greater key, so the first maximum wins.
Note the key default here is 0, unlike the 0.99 used by the filter. -/
def pyMaxBy (best : Face) : List Face → Face
  | [] => best
  | f :: rest =>
    pyMaxBy (if best.face_confidence.getD 0 < f.face_confidence.getD 0
      then f else best) rest

/-- A Python exception as the extract endpoint sees it: its type matters
(the endpoint handles `ValueError` and all other exceptions differently)
and its message (`str(e)`). -/
structure PyExc where
  is_value_error : Bool
  msg : String
deriving DecidableEq, Repr

/-- Service-level errors raised by `extract_embedding`.  `backendErr` is
the re-raised last backend exception (embedding.py line 405), of whatever
type the backend raised; the others are the literal `ValueError`s of
embedding.py.  `emptySelection` mirrors Python `max` raising on an empty
sequence - unreachable, because `confident_filter` of a nonempty list is
nonempty. -/
inductive SvcErr where
  | backendErr (exc : PyExc)
  | allBackendsFailed
  | multipleFaces (count : ℕ)
  | noFacesEmpty
  | noEmbedding
  | emptySelection
deriving DecidableEq, Repr

/-- The `str(e)` message of each service-level error, used by the extract
endpoint for substring classification (main.py lines 218-239). -/
def SvcErr.message : SvcErr → String
  | .backendErr exc => exc.msg
  | .allBackendsFailed => "No faces detected in image (all backends failed)"
  | .multipleFaces n => "Multiple faces detected (" ++ toString n ++ ")"
  | .noFacesEmpty => "No faces detected in image"
  | .noEmbedding => "No embedding generated"
  | .emptySelection => "max() arg is an empty sequence"

/-- Whether a service-level error is a `ValueError`: a re-raised backend
exception keeps its original type; every error raised by embedding.py
itself (including Python max on an empty sequence) is a `ValueError`. -/
def SvcErr.is_value_error : SvcErr → Bool
  | .backendErr exc => exc.is_value_error
  | _ => true

/-- The metadata dict assembled at embedding.py lines 446-451. -/
structure FaceMetadata where
  face_count : ℕ
  face_confidence : ℚ
  facial_area : FacialArea
  detector_backend : Option String
deriving DecidableEq, Repr

/-- The face-selection tail of `extract_embedding` (embedding.py lines
413-453), applied to the winning backend result list: guard against an
empty list, confidence-filter with fallback, raise MultipleFaces when more
than one face remains and detection is enforced, otherwise select the
highest-confidence face and assemble the metadata (total face count,
selected confidence with default 0.99, bounding box with zero default,
winning backend). -/
def process_faces (result : List Face) (used_backend : Option String)
    (enforce_detection : Bool) : Except SvcErr (List ℚ × FaceMetadata) :=
  if result.length = 0 then .error .noFacesEmpty
  else
    let confident_faces := confident_filter result
    if 1 < confident_faces.length ∧ enforce_detection = true then
      .error (.multipleFaces confident_faces.length)
    else
      match confident_faces with
      | [] => .error .emptySelection
      | f :: rest =>
        let face_data := pyMaxBy f rest
        .ok (face_data.embedding,
          { face_count := result.length,
            face_confidence := face_data.face_confidence.getD (99/100),
            facial_area := face_data.facial_area.getD ⟨0, 0, 0, 0⟩,
            detector_backend := used_backend })

/-- Mutable state of the backend loop of embedding.py lines 366-400:
`result`, `last_error`, `used_backend`. -/
structure LoopState where
  result : Option (List Face)
  last_error : Option PyExc
  used_backend : Option String
deriving DecidableEq, Repr

/-- The backend for-loop (embedding.py lines 370-400).  `attempt backend`
is the outcome of `DeepFace.represent` with that detector backend: a result
list, or a raised exception with its message.  A non-empty result breaks
the loop recording the backend; an empty result leaves it assigned and
continues; an exception stores `last_error` and continues - the code
distinguishes a "no face" message from other exceptions only to choose the
log line, both branches `continue` to the next backend. -/
def try_backends (attempt : String → Except PyExc (List Face)) :
    List String → LoopState → LoopState
  | [], s => s
  | backend :: rest, s =>
    match attempt backend with
    | .ok r =>
      if r.isEmpty then try_backends attempt rest { s with result := some r }
      else { s with result := some r, used_backend := some backend }
    | .error e => try_backends attempt rest { s with last_error := some e }

/-- The backend priority list (embedding.py line 359). -/
def detector_backends : List String := ["retinaface", "mtcnn", "opencv"]

/-- Embedding.py lines 403-406: when no backend produced a usable result,
re-raise the last stored exception if any, else the generic
all-backends-failed `ValueError`. -/
def exhausted_error : Option PyExc → SvcErr
  | some e => .backendErr e
  | none => .allBackendsFailed

/-- `DeepFaceService.extract_embedding` (embedding.py lines 319-453) with
the external `DeepFace.represent` capability abstracted as `attempt`: run
the backend fallback loop, fail with the exhaustion error when the final
`result` is missing or empty, otherwise process the winning face list. -/
def extract_embedding (attempt : String → Except PyExc (List Face))
    (enforce_detection : Bool) : Except SvcErr (List ℚ × FaceMetadata) :=
  let s := try_backends attempt detector_backends ⟨none, none, none⟩
  match s.result with
  | none => .error (exhausted_error s.last_error)
  | some faces =>
    if faces.isEmpty then .error (exhausted_error s.last_error)
    else process_faces faces s.used_backend enforce_detection

/-- Does `leadsWith p s` hold: is `p` an initial segment of `s`? -/
def leadsWith : List Char → List Char → Bool
  | [], _ => true
  | _ :: _, [] => false
  | a :: p, b :: s => a == b && leadsWith p s

/-- Is `p` a contiguous sublist of `s`? -/
def hasSubList (p : List Char) : List Char → Bool
  | [] => leadsWith p []
  | b :: s => leadsWith p (b :: s) || hasSubList p s

/-- Python `pat in s` on strings: substring containment. -/
def containsStr (s pat : String) : Bool := hasSubList pat.toList s.toList

/-- Python `str.lower()` for the ASCII messages this service produces:
lower-case every character. -/
def pyLower (s : String) : String := ⟨s.data.map Char.toLower⟩

/-- The error codes of schemas.py `ErrorCode`. -/
inductive ErrorCode where
  | NO_FACE_DETECTED
  | MULTIPLE_FACES_DETECTED
  | INVALID_IMAGE
  | MODEL_ERROR
  | INVALID_EMBEDDING
  | DOWNLOAD_FAILED
  | INTERNAL_ERROR
  | CLIP_ERROR
  | HASH_ERROR
deriving DecidableEq, Repr

/-- The extract endpoint error classification.  The message dispatch of
main.py lines 218-239 sits inside an `except ValueError` handler:
lower-case the message, map no-face patterns to NO_FACE_DETECTED,
"multiple" to MULTIPLE_FACES_DETECTED and other ValueErrors to
MODEL_ERROR.  Any non-ValueError exception escapes that handler and is
caught by the endpoint's outer `except Exception` (main.py lines 260-266),
surfacing as INTERNAL_ERROR. -/
def classify_extract_error (e : SvcErr) : ErrorCode :=
  if e.is_value_error then
    let error_message := pyLower e.message
    if containsStr error_message "no face" ||
        containsStr error_message "could not find" then
      .NO_FACE_DETECTED
    else if containsStr error_message "multiple" then
      .MULTIPLE_FACES_DETECTED
    else
      .MODEL_ERROR
  else
    .INTERNAL_ERROR

/-- A sample attempt environment for the spec scenario: the first two
backends raise no-face errors, the third returns one face at confidence
0.9. -/
def sampleAttemptThirdBackend : String → Except PyExc (List Face) :=
  fun bk =>
    if bk = "retinaface" then .error ⟨true, "no face detected by retinaface"⟩
    else if bk = "mtcnn" then .error ⟨true, "no face detected by mtcnn"⟩
    else .ok [⟨[2], some (9/10), some ⟨1, 2, 3, 4⟩⟩]

/-- An attempt outcome that does not count as "valid" for the loop of
embedding.py line 384: an exception, or an empty result list. -/
def fails_or_empty (r : Except PyExc (List Face)) : Prop :=
  (∃ e, r = .error e) ∨ r = .ok []

/-- The value held by the loop variable `last_error` after running the
given backends: the message of the last backend that raised, else the
initial value. -/
def last_error_of (attempt : String → Except PyExc (List Face))
    (bs : List String) (init : Option PyExc) : Option PyExc :=
  bs.foldl (fun acc b => match attempt b with
    | .error e => some e
    | .ok _ => acc) init

/-! ### Image preprocessing (embedding.py `validate_image` and helpers) -/

/-- `MIN_IMAGE_DIMENSION` environment default "480" (embedding.py line 23). -/
def MIN_IMAGE_DIMENSION : ℕ := 480

/-- `MAX_IMAGE_DIMENSION` environment default "2048" (embedding.py line 24). -/
def MAX_IMAGE_DIMENSION : ℕ := 2048

/-- An in-memory PIL raster: dimensions, color mode, and the pixel
function.  Pixel values are naturals; `pix x y` is meaningful for
`x < width` and `y < height`. -/
structure Img where
  width : ℕ
  height : ℕ
  mode : String
  pix : ℕ → ℕ → ℕ

/-- PIL `Image.FLIP_LEFT_RIGHT`: mirror horizontally. -/
def flip_left_right (I : Img) : Img :=
  ⟨I.width, I.height, I.mode, fun x y => I.pix (I.width - 1 - x) y⟩

/-- PIL `Image.FLIP_TOP_BOTTOM`: mirror vertically. -/
def flip_top_bottom (I : Img) : Img :=
  ⟨I.width, I.height, I.mode, fun x y => I.pix x (I.height - 1 - y)⟩

/-- PIL `Image.ROTATE_90`: rotate 90 degrees counter-clockwise; width and
height swap and output pixel (x, y) comes from input pixel
(width - 1 - y, x). -/
def rotate_90 (I : Img) : Img :=
  ⟨I.height, I.width, I.mode, fun x y => I.pix (I.width - 1 - y) x⟩

/-- PIL `Image.ROTATE_180`: rotate 180 degrees; dimensions unchanged. -/
def rotate_180 (I : Img) : Img :=
  ⟨I.width, I.height, I.mode,
    fun x y => I.pix (I.width - 1 - x) (I.height - 1 - y)⟩

/-- PIL `Image.ROTATE_270`: rotate 270 degrees counter-clockwise, i.e. 90
degrees clockwise; width and height swap and output pixel (x, y) comes
from input pixel (y, height - 1 - x). -/
def rotate_270 (I : Img) : Img :=
  ⟨I.height, I.width, I.mode, fun x y => I.pix y (I.height - 1 - x)⟩

/-- The `rotation_map` of `_normalize_exif_orientation` (embedding.py
lines 248-270), applied to an orientation tag value: value 1 maps to None
(no transform), tuple entries are applied left to right with `transpose`,
and an unknown value leaves the image unchanged (`rotation_map.get`
returning None). -/
def apply_orientation : ℕ → Img → Img
  | 1, I => I
  | 2, I => flip_left_right I
  | 3, I => rotate_180 I
  | 4, I => flip_top_bottom I
  | 5, I => rotate_90 (flip_left_right I)
  | 6, I => rotate_270 I
  | 7, I => rotate_270 (flip_left_right I)
  | 8, I => rotate_90 I
  | _, I => I

/-- Round-half-to-even of a rational to an integer, the tie-breaking rule
of IEEE-754 round-to-nearest. -/
def roundHalfEven (x : ℚ) : ℤ :=
  let n := ⌊x⌋
  let frac := x - n
  if 1/2 < frac then n + 1
  else if frac < 1/2 then n
  else if Even n then n else n + 1

/-- Round a positive rational to the nearest IEEE-754 double: scale by a
power of two so the value lies in the 53-bit mantissa range, round
half-to-even, and scale back.  Overflow and subnormals are ignored - the
magnitudes this service computes never reach them. -/
def roundDoublePos (q : ℚ) : ℚ :=
  let e : ℤ := Int.log 2 q - 52
  ((roundHalfEven (q * 2 ^ (-e)) : ℤ) : ℚ) * 2 ^ e

/-- `fl`: the IEEE-754 double nearest to a rational. -/
def roundDouble (q : ℚ) : ℚ :=
  if q = 0 then 0
  else if 0 < q then roundDoublePos q
  else -roundDoublePos (-q)

/-- `int(d * (target / current))` of `_enforce_dimensions` as Python
evaluates it in IEEE doubles: the true division `target / current` is
rounded to a double, the product `d * scale_factor` is rounded to a
double, and `int()` truncates (the floor, for nonnegative values).  The
integers involved are far below 2^53, hence exactly representable, so
these are the only two roundings. -/
def scaledDim (d target current : ℕ) : ℕ :=
  ⌊roundDouble ((d : ℚ) * roundDouble ((target : ℚ) / (current : ℚ)))⌋₊

/-- The resize decision of `_enforce_dimensions` (embedding.py lines
278-317): upscale when the short side is under the minimum (and nonzero),
else downscale when the long side is over the maximum but only if the
resulting short side stays at least the minimum; `none` means the image is
left untouched. -/
def resize_target (width height : ℕ) : Option (ℕ × ℕ) :=
  let min_dim := min width height
  let max_dim := max width height
  if min_dim < MIN_IMAGE_DIMENSION ∧ 0 < min_dim then
    some (scaledDim width MIN_IMAGE_DIMENSION min_dim,
      scaledDim height MIN_IMAGE_DIMENSION min_dim)
  else if MAX_IMAGE_DIMENSION < max_dim then
    let new_width := scaledDim width MAX_IMAGE_DIMENSION max_dim
    let new_height := scaledDim height MAX_IMAGE_DIMENSION max_dim
    if MIN_IMAGE_DIMENSION ≤ min new_width new_height then
      some (new_width, new_height)
    else none
  else none

/-- The dimensions produced by `_enforce_dimensions`: the resize target
when a resize happens, the original dimensions otherwise. -/
def enforce_dimensions (width height : ℕ) : ℕ × ℕ :=
  (resize_target width height).getD (width, height)

/-- The PIL operations `validate_image` relies on, each of which can raise
in Python: decoding plus `verify()` of the request bytes, reading the EXIF
orientation tag (`getexif` and the tag lookup), and `Image.resize`.
`convert("RGB")` is modelled as the pure mode coercion below. -/
structure PILOps where
  openImage : Except String Img
  readOrientation : Img → Except String (Option ℕ)
  resize : Img → ℕ × ℕ → Except String Img

/-- `_normalize_exif_orientation` (embedding.py lines 214-276): read the
orientation tag and apply the mapped transform; the surrounding
try/except makes ANY failure while reading or transforming return the
image unmodified (best-effort, never fatal). -/
def normalize_exif_orientation (ops : PILOps) (image : Img) : Img :=
  match ops.readOrientation image with
  | .error _ => image
  | .ok none => image
  | .ok (some o) => apply_orientation o image

/-- `image.convert("RGB")` when the mode differs (embedding.py lines
200-201), modelled as the mode coercion. -/
def convert_rgb (image : Img) : Img :=
  if image.mode = "RGB" then image else { image with mode := "RGB" }

/-- `_enforce_dimensions` at the PIL level: perform the resize the
decision calls for; `Image.resize` can raise, and there is no local
try/except around it in the code. -/
def enforce_dimensions_pil (ops : PILOps) (image : Img) :
    Except String Img :=
  match resize_target image.width image.height with
  | none => .ok image
  | some t => ops.resize image t

/-- The body of the `try` block of `validate_image` (embedding.py lines
186-209): decode and verify, normalize EXIF orientation, coerce to RGB,
enforce dimension constraints. -/
def validate_image_body (ops : PILOps) : Except String Img :=
  match ops.openImage with
  | .error e => .error e
  | .ok image =>
    enforce_dimensions_pil ops
      (convert_rgb (normalize_exif_orientation ops image))

/-- `validate_image` (embedding.py lines 168-212): any exception escaping
the body - decode/verify, convert or resize alike - surfaces as the
InvalidImage `ValueError` with the original message attached. -/
def validate_image (ops : PILOps) : Except String Img :=
  match validate_image_body ops with
  | .ok image => .ok image
  | .error e => .error ("Invalid or corrupted image: " ++ e)

/-! ### Image download (embedding.py `download_image`) -/

/-- Outcome of the HTTP GET performed by `download_image`: a timeout or a
response with status code, content type and body bytes. -/
inductive HttpResult where
  | timeout
  | response (status_code : ℕ) (content_type : String) (content : List ℕ)
deriving DecidableEq, Repr

/-- Typed download failures (`ValueError`s of embedding.py lines
135-138). -/
inductive DownloadErr where
  | timeoutErr
  | httpStatusErr (status_code : ℕ)
deriving DecidableEq, Repr

/-- `download_image` (embedding.py lines 108-140): a timeout raises; then
`raise_for_status` raises for every non-2xx status code; a content type
not starting with image/ only produces a log warning, after which the body
bytes are returned unconditionally. -/
def download_image : HttpResult → Except DownloadErr (List ℕ)
  | .timeout => .error .timeoutErr
  | .response status_code _ content =>
    if 200 ≤ status_code ∧ status_code < 300 then .ok content
    else .error (.httpStatusErr status_code)

/-! ### Evaluation lemmas for the float-value model -/

namespace FVal

theorem add_num (a b : ℚ) : add (num a) (num b) = num (a + b) := rfl

theorem add_nan_left (x : FVal) : add nan x = nan := by cases x <;> rfl

theorem add_nan_right (x : FVal) : add x nan = nan := by cases x <;> rfl

theorem sub_num (a b : ℚ) : sub (num a) (num b) = num (a - b) := rfl

theorem sub_nan_left (x : FVal) : sub nan x = nan := by cases x <;> rfl

theorem sub_nan_right (x : FVal) : sub x nan = nan := by cases x <;> rfl

theorem mul_nan_left (x : FVal) : mul nan x = nan := by cases x <;> rfl

theorem div_num (a b : ℚ) :
    div (num a) (num b) = if b = 0 then nan else num (a / b) := rfl

theorem div_nan_left (x : FVal) : div nan x = nan := by cases x <;> rfl

theorem div_nan_right (x : FVal) : div x nan = nan := by cases x <;> rfl

theorem neg_nan : neg nan = nan := rfl

theorem absF_nan : absF nan = nan := rfl

theorem absF_num (a : ℚ) : absF (num a) = num |a| := rfl

theorem sqrtF_nan : sqrtF nan = nan := rfl

theorem sqrtF_num_nonneg (q : ℚ) (h : 0 ≤ q) :
    sqrtF (num q) = num (Rat.sqrt q) := by
  simp [sqrtF, not_lt.mpr h]

theorem expF_nan : expF nan = nan := rfl

theorem flt_nan_left (x : FVal) : flt nan x = false := by cases x <;> rfl

theorem flt_num (a b : ℚ) : flt (num a) (num b) = decide (a < b) := rfl

theorem clip01_nan : clip01 nan = nan := rfl

end FVal

theorem pyMin_nan_right (x : FVal) :
    pyMin x .nan = x := by
  simp [pyMin, FVal.flt_nan_left]

theorem pyMin_one_num (x : ℚ) : pyMin (.num 1) (.num x) = .num (min 1 x) := by
  by_cases h : x < 1
  · simp [pyMin, FVal.flt, h, min_eq_right h.le]
  · simp [pyMin, FVal.flt, h, min_eq_left (not_lt.mp h)]

theorem dotQ_nil_left (v : List ℚ) : dotQ [] v = 0 := by simp [dotQ]

theorem dotQ_cons (a b : ℚ) (as bs : List ℚ) :
    dotQ (a :: as) (b :: bs) = a * b + dotQ as bs := by simp [dotQ]

theorem dotQ_replicate_zero_left (n : ℕ) (v : List ℚ) :
    dotQ (List.replicate n 0) v = 0 := by
  induction n generalizing v with
  | zero => simp [dotQ]
  | succ n ih =>
    cases v with
    | nil => simp [dotQ]
    | cons b bs => rw [List.replicate_succ, dotQ_cons, ih bs]; ring

theorem ratSqrt_zero : Rat.sqrt 0 = 0 := by
  have h := Rat.sqrt_eq (0 : ℚ)
  rw [mul_zero] at h
  rw [h, abs_zero]

theorem ratSqrt_one : Rat.sqrt 1 = 1 := by
  have h := Rat.sqrt_eq (1 : ℚ)
  rw [mul_one] at h
  rw [h, abs_one]

theorem sumSqF_cons (x : FVal) (l : List FVal) :
    sumSqF (x :: l) = FVal.add (FVal.mul x x) (sumSqF l) := rfl

theorem sumSqF_nan_head (l : List FVal) : sumSqF (.nan :: l) = .nan := by
  rw [sumSqF_cons, FVal.mul_nan_left, FVal.add_nan_left]

/-- The decision/scoring tail applied to a NaN distance: the boolean
decision is false (NaN compares false), distance and similarity stay NaN,
and the Python `min(1.0, nan)` makes confidence come out as 1.0. -/
theorem comparison_result_nan (m : String) (t : ℚ) :
    comparison_result m .nan t =
      ⟨false, .nan, .nan, .num 1, t, m⟩ := by
  unfold comparison_result
  by_cases h : m = "cosine" <;>
    simp [h, FVal.sub_nan_left, FVal.sub_nan_right, FVal.neg_nan,
      FVal.div_nan_left, FVal.expF_nan, FVal.absF_nan, FVal.flt_nan_left,
      FVal.clip01_nan, pyMin_nan_right]

theorem l2NormalizeF_cons (a : ℚ) (l : List ℚ) :
    l2NormalizeF (a :: l) =
      FVal.div (.num a) (normQ (a :: l)) ::
        l.map (fun b => FVal.div (.num b) (normQ (a :: l))) := by
  unfold l2NormalizeF
  rw [List.map_cons]

theorem l2NormalizeF_zero512 :
    l2NormalizeF (List.replicate 512 (0:ℚ)) = List.replicate 512 .nan := by
  unfold l2NormalizeF normQ
  rw [dotQ_replicate_zero_left, FVal.sqrtF_num_nonneg 0 le_rfl, ratSqrt_zero,
    List.map_replicate]
  simp [FVal.div_num]

/-! ### Claim theorems: the comparison engine -/

/-- C1: whenever the two embeddings handed to the compare operation do not
both have length 512, the request-level dimensionality validator rejects
them with an InvalidEmbedding (invalidDims) error - regardless of the
metric string and threshold, so no distance arithmetic is reached - and the
operation never returns a numeric ComparisonResult. -/
theorem claim_C1_dimension_validation
    (embedding1 embedding2 : List ℚ) (distance_metric : String)
    (threshold : Option ℚ)
    (h : ¬(embedding1.length = 512 ∧ embedding2.length = 512)) :
    (∃ n, compare_faces embedding1 embedding2 distance_metric threshold =
        .error (.invalidDims n)) ∧
    ∀ r, compare_faces embedding1 embedding2 distance_metric threshold ≠
        .ok r := by
  unfold compare_faces validate_embedding_dimensions
  by_cases h1 : embedding1.length = 512
  · have h2 : embedding2.length ≠ 512 := fun hc => h ⟨h1, hc⟩
    refine ⟨⟨embedding2.length, ?_⟩, fun r => ?_⟩ <;> simp [h1, h2]
  · refine ⟨⟨embedding1.length, ?_⟩, fun r => ?_⟩ <;> simp [h1]

/-- Witness for C1: embeddings of lengths 256 and 512 are rejected with the
dimensionality error and never produce a numeric result. -/
theorem claim_C1_dimension_validation_witness :
    ¬((List.replicate 256 (0:ℚ)).length = 512 ∧
        (List.replicate 512 (0:ℚ)).length = 512) ∧
    ((∃ n, compare_faces (List.replicate 256 (0:ℚ)) (List.replicate 512 0)
        "cosine" none = .error (.invalidDims n)) ∧
      ∀ r, compare_faces (List.replicate 256 (0:ℚ)) (List.replicate 512 0)
        "cosine" none ≠ .ok r) := by
  have h : ¬((List.replicate 256 (0:ℚ)).length = 512 ∧
      (List.replicate 512 (0:ℚ)).length = 512) := by
    rw [List.length_replicate, List.length_replicate]
    norm_num
  exact ⟨h, claim_C1_dimension_validation _ _ "cosine" none h⟩

/-- C2: for any embeddings, any metric the dispatch accepts, and any
positive effective threshold (explicit or the per-metric default),
`compare_embeddings` succeeds; `is_same_person` is the strict float
comparison `distance < threshold`; when the distance is an ordinary number
q the confidence equals `min 1 (|q - t| / t)`; and when the distance
exactly equals the threshold the decision is false and the confidence 0. -/
theorem claim_C2_decision_and_confidence
    (embedding1 embedding2 : List ℚ) (distance_metric : String)
    (threshold : Option ℚ) (d : FVal) (t : ℚ)
    (hd : computeDistance distance_metric embedding1 embedding2 = .ok d)
    (ht : t = threshold.getD (DEFAULT_THRESHOLDS distance_metric))
    (hpos : 0 < t) :
    ∃ r, compare_embeddings embedding1 embedding2 distance_metric threshold =
        .ok r ∧
      r.threshold_used = t ∧
      r.distance = d ∧
      r.is_same_person = FVal.flt d (.num t) ∧
      (∀ q, d = .num q → r.confidence = .num (min 1 (|q - t| / t))) ∧
      (d = .num t → r.is_same_person = false ∧ r.confidence = .num 0) := by
  refine ⟨comparison_result distance_metric d t, ?_, rfl, rfl, rfl, ?_, ?_⟩
  · unfold compare_embeddings
    rw [hd, ← ht]
  · intro q hq
    subst hq
    show pyMin (.num 1)
        (FVal.div (FVal.absF (FVal.sub (.num q) (.num t))) (.num t)) =
      .num (min 1 (|q - t| / t))
    rw [FVal.sub_num, FVal.absF_num, FVal.div_num, if_neg hpos.ne',
      pyMin_one_num]
  · intro hq
    subst hq
    constructor
    · show FVal.flt (.num t) (.num t) = false
      rw [FVal.flt_num]
      simp
    · show pyMin (.num 1)
          (FVal.div (FVal.absF (FVal.sub (.num t) (.num t))) (.num t)) =
        .num 0
      rw [FVal.sub_num, sub_self, FVal.absF_num, abs_zero, FVal.div_num,
        if_neg hpos.ne', zero_div, pyMin_one_num]
      norm_num

/-- Witness for C2: two identical one-component embeddings under the cosine
metric and the default threshold 0.68. -/
theorem claim_C2_decision_and_confidence_witness :
    computeDistance "cosine" [(1:ℚ)] [1] = .ok (.num 0) ∧
    (17/25 : ℚ) = (none : Option ℚ).getD (DEFAULT_THRESHOLDS "cosine") ∧
    (0:ℚ) < 17/25 ∧
    (∃ r, compare_embeddings [(1:ℚ)] [1] "cosine" none = .ok r ∧
      r.threshold_used = 17/25 ∧
      r.distance = .num 0 ∧
      r.is_same_person = FVal.flt (.num 0) (.num (17/25)) ∧
      (∀ q, (.num 0 : FVal) = .num q →
        r.confidence = .num (min 1 (|q - 17/25| / (17/25)))) ∧
      ((.num 0 : FVal) = .num (17/25) →
        r.is_same_person = false ∧ r.confidence = .num 0)) := by
  have hdot : dotQ [(1:ℚ)] [1] = 1 := by
    rw [dotQ_cons, dotQ_nil_left]
    norm_num
  have hcos : scipyCosine [(1:ℚ)] [1] = .num 0 := by
    simp only [scipyCosine]
    rw [hdot, show (1 : ℚ) * 1 = 1 from one_mul 1]
    rw [FVal.sqrtF_num_nonneg 1 (by norm_num), ratSqrt_one, FVal.div_num,
      if_neg (by norm_num : (1:ℚ) ≠ 0), FVal.sub_num]
    norm_num
  have hd : computeDistance "cosine" [(1:ℚ)] [1] = .ok (.num 0) := by
    unfold computeDistance
    rw [if_pos rfl, hcos]
  have ht : (17/25 : ℚ) = (none : Option ℚ).getD (DEFAULT_THRESHOLDS "cosine") := by
    unfold DEFAULT_THRESHOLDS
    rw [Option.getD_none, if_pos rfl]
    norm_num
  exact ⟨hd, ht, by norm_num,
    claim_C2_decision_and_confidence [1] [1] "cosine" none (.num 0) (17/25)
      hd ht (by norm_num)⟩

/-! ### Lemmas about the detection loop and face selection -/

theorem list_isEmpty_true_iff {α : Type} (l : List α) :
    l.isEmpty = true ↔ l = [] := by
  cases l <;> simp

theorem pyMaxBy_mem (best : Face) (l : List Face) :
    pyMaxBy best l = best ∨ pyMaxBy best l ∈ l := by
  induction l generalizing best with
  | nil => exact Or.inl rfl
  | cons f rest ih =>
    rw [pyMaxBy]
    by_cases hc : best.face_confidence.getD 0 < f.face_confidence.getD 0
    · rw [if_pos hc]
      rcases ih f with h | h
      · exact Or.inr (by rw [h]; exact List.mem_cons_self f rest)
      · exact Or.inr (List.mem_cons_of_mem f h)
    · rw [if_neg hc]
      rcases ih best with h | h
      · exact Or.inl h
      · exact Or.inr (List.mem_cons_of_mem f h)

theorem pyMaxBy_ge (best : Face) (l : List Face) :
    best.face_confidence.getD 0 ≤ (pyMaxBy best l).face_confidence.getD 0 ∧
    ∀ f ∈ l,
      f.face_confidence.getD 0 ≤ (pyMaxBy best l).face_confidence.getD 0 := by
  induction l generalizing best with
  | nil => exact ⟨le_refl _, fun f hf => absurd hf (List.not_mem_nil f)⟩
  | cons g rest ih =>
    rw [pyMaxBy]
    obtain ⟨h1, h2⟩ := ih (if best.face_confidence.getD 0 <
      g.face_confidence.getD 0 then g else best)
    have hbest : best.face_confidence.getD 0 ≤
        (if best.face_confidence.getD 0 < g.face_confidence.getD 0
          then g else best).face_confidence.getD 0 := by
      by_cases hc : best.face_confidence.getD 0 < g.face_confidence.getD 0
      · rw [if_pos hc]; exact le_of_lt hc
      · rw [if_neg hc]
    have hg : g.face_confidence.getD 0 ≤
        (if best.face_confidence.getD 0 < g.face_confidence.getD 0
          then g else best).face_confidence.getD 0 := by
      by_cases hc : best.face_confidence.getD 0 < g.face_confidence.getD 0
      · rw [if_pos hc]
      · rw [if_neg hc]; exact not_lt.mp hc
    refine ⟨hbest.trans h1, fun f hf => ?_⟩
    rcases List.mem_cons.mp hf with h | h
    · rw [h]; exact hg.trans h1
    · exact h2 f h

theorem confident_filter_of_filter_ne_nil (result : List Face)
    (h : result.filter confident_pred ≠ []) :
    confident_filter result = result.filter confident_pred := by
  unfold confident_filter
  rw [if_neg (fun hc => h ((list_isEmpty_true_iff _).mp hc))]

theorem confident_filter_of_filter_nil (result : List Face)
    (h : result.filter confident_pred = []) :
    confident_filter result = result := by
  unfold confident_filter
  rw [if_pos ((list_isEmpty_true_iff _).mpr h)]

theorem confident_filter_ne_nil (result : List Face) (h : result ≠ []) :
    confident_filter result ≠ [] := by
  unfold confident_filter
  by_cases hf : (result.filter confident_pred).isEmpty
  · rw [if_pos hf]; exact h
  · rw [if_neg hf]
    intro hc
    rw [hc] at hf
    exact hf rfl

theorem try_backends_cons (attempt : String → Except PyExc (List Face))
    (x : String) (rest : List String) (s : LoopState) :
    try_backends attempt (x :: rest) s =
      match attempt x with
      | .ok r =>
        if r.isEmpty then
          try_backends attempt rest { s with result := some r }
        else { s with result := some r, used_backend := some x }
      | .error e =>
        try_backends attempt rest { s with last_error := some e } := rfl

theorem last_error_of_cons (attempt : String → Except PyExc (List Face))
    (x : String) (bs : List String) (init : Option PyExc) :
    last_error_of attempt (x :: bs) init =
      last_error_of attempt bs
        (match attempt x with
          | .error e => some e
          | .ok _ => init) := rfl

/-- The loop stops at the first backend whose attempt returns a non-empty
list: earlier backends may have raised or returned empty lists, the loop
records only their last error, tags the winner, and never looks at the
backends after it. -/
theorem try_backends_first_success
    (attempt : String → Except PyExc (List Face)) (pre : List String)
    (b : String) (post : List String) (faces : List Face) (s0 : LoopState)
    (hpre : ∀ x ∈ pre, fails_or_empty (attempt x))
    (hb : attempt b = .ok faces) (hne : faces ≠ []) :
    try_backends attempt (pre ++ b :: post) s0 =
      { result := some faces,
        last_error := last_error_of attempt pre s0.last_error,
        used_backend := some b } := by
  induction pre generalizing s0 with
  | nil =>
    obtain ⟨f, fs, rfl⟩ : ∃ f fs, faces = f :: fs := by
      cases faces with
      | nil => exact absurd rfl hne
      | cons f fs => exact ⟨f, fs, rfl⟩
    rw [List.nil_append, try_backends_cons, hb]
    rfl
  | cons x pre ih =>
    rcases hpre x (List.mem_cons_self x pre) with ⟨e, he⟩ | he
    · rw [List.cons_append, try_backends_cons, he]
      show try_backends attempt (pre ++ b :: post)
          { s0 with last_error := some e } = _
      rw [ih _ (fun y hy => hpre y (List.mem_cons_of_mem x hy)),
        last_error_of_cons, he]
    · rw [List.cons_append, try_backends_cons, he]
      show try_backends attempt (pre ++ b :: post)
          { s0 with result := some [] } = _
      rw [ih _ (fun y hy => hpre y (List.mem_cons_of_mem x hy)),
        last_error_of_cons, he]

/-- When every backend raises or returns an empty list, the loop ends with
the last raised error recorded, the winner unset, and the result either
still the initial one or an empty list. -/
theorem try_backends_exhausted
    (attempt : String → Except PyExc (List Face)) (bs : List String)
    (s0 : LoopState) (h : ∀ x ∈ bs, fails_or_empty (attempt x)) :
    ∃ res, try_backends attempt bs s0 =
        { result := res,
          last_error := last_error_of attempt bs s0.last_error,
          used_backend := s0.used_backend } ∧
      (res = s0.result ∨ res = some []) := by
  induction bs generalizing s0 with
  | nil => exact ⟨s0.result, rfl, Or.inl rfl⟩
  | cons x bs ih =>
    rcases h x (List.mem_cons_self x bs) with ⟨e, he⟩ | he
    · obtain ⟨res, hrec, hres⟩ :=
        ih { s0 with last_error := some e }
          (fun y hy => h y (List.mem_cons_of_mem x hy))
      refine ⟨res, ?_, hres⟩
      rw [try_backends_cons, he]
      show try_backends attempt bs { s0 with last_error := some e } = _
      rw [hrec, last_error_of_cons, he]
    · obtain ⟨res, hrec, hres⟩ :=
        ih { s0 with result := some [] }
          (fun y hy => h y (List.mem_cons_of_mem x hy))
      refine ⟨res, ?_, ?_⟩
      · rw [try_backends_cons, he]
        show try_backends attempt bs { s0 with result := some [] } = _
        rw [hrec, last_error_of_cons, he]
      · rcases hres with h1 | h1
        · exact Or.inr h1
        · exact Or.inr h1

/-! ### Lemmas about IEEE-double rounding and dimension scaling -/

theorem roundHalfEven_abs_sub (x : ℚ) : |(roundHalfEven x : ℚ) - x| ≤ 1/2 := by
  have hfl := Int.floor_le x
  have hfl2 := Int.lt_floor_add_one x
  simp only [roundHalfEven]
  split_ifs with h1 h2 h3
  · rw [abs_le]
    constructor <;> push_cast <;> linarith
  · rw [abs_le]
    constructor <;> push_cast <;> linarith
  · have h1' : x - ↑⌊x⌋ ≤ 1/2 := not_lt.mp h1
    rw [abs_le]
    constructor <;> push_cast <;> linarith
  · have h2' : 1/2 ≤ x - ↑⌊x⌋ := not_lt.mp h2
    rw [abs_le]
    constructor <;> push_cast <;> linarith

theorem roundHalfEven_eq_near (x : ℚ) (n : ℤ) (h : |x - (n:ℚ)| < 1/2) :
    roundHalfEven x = n := by
  rw [abs_sub_lt_iff] at h
  obtain ⟨ha, hb⟩ := h
  rcases le_or_lt (n : ℚ) x with hle | hlt
  · have hfl : ⌊x⌋ = n := by
      rw [Int.floor_eq_iff]
      constructor
      · exact hle
      · push_cast
        linarith
    simp only [roundHalfEven]
    rw [hfl]
    rw [if_neg (by push_cast; linarith), if_pos (by push_cast; linarith)]
  · have hfl : ⌊x⌋ = n - 1 := by
      rw [Int.floor_eq_iff]
      constructor
      · push_cast
        linarith
      · push_cast
        linarith
    simp only [roundHalfEven]
    rw [hfl]
    rw [if_pos (by push_cast; linarith)]
    omega

theorem int_log2_eq (q : ℚ) (k : ℤ) (hq : 0 < q)
    (h1 : (2:ℚ)^k ≤ q) (h2 : q < (2:ℚ)^(k+1)) : Int.log 2 q = k := by
  have hA := Int.zpow_log_le_self (b := 2) (R := ℚ) (by norm_num) hq
  have hB := Int.lt_zpow_succ_log_self (b := 2) (R := ℚ) (by norm_num) q
  push_cast at hA hB
  by_contra hne
  rcases lt_or_gt_of_ne hne with hlt | hgt
  · have hstep : (2:ℚ)^(Int.log 2 q + 1) ≤ (2:ℚ)^k :=
      zpow_le_zpow_right₀ (by norm_num) (by omega)
    linarith
  · have hstep : (2:ℚ)^(k+1) ≤ (2:ℚ)^(Int.log 2 q) :=
      zpow_le_zpow_right₀ (by norm_num) (by omega)
    linarith

theorem roundDouble_of_pos (q : ℚ) (hq : 0 < q) :
    roundDouble q = roundDoublePos q := by
  rw [roundDouble, if_neg hq.ne', if_pos hq]

theorem two_zpow_mul_neg (e : ℤ) : (2:ℚ)^e * (2:ℚ)^(-e) = 1 := by
  rw [← zpow_add₀ (by norm_num : (2:ℚ) ≠ 0)]
  simp

/-- Characterization of double rounding used to evaluate it at concrete
inputs: if a 53-bit mantissa value is strictly within half an ulp of the
argument, it is the rounding result. -/
theorem roundDouble_eq_near (q : ℚ) (n e : ℤ)
    (hnlo : (2:ℤ)^52 < n) (hnhi : n < (2:ℤ)^53)
    (hdist : |q - (n:ℚ) * (2:ℚ)^e| < (2:ℚ)^e / 2) :
    roundDouble q = (n:ℚ) * (2:ℚ)^e := by
  have hepos : (0:ℚ) < (2:ℚ)^e := zpow_pos (by norm_num) e
  have hnlo' : ((2:ℚ)^(52:ℕ) : ℚ) + 1 ≤ (n:ℚ) := by
    have : (2:ℤ)^52 + 1 ≤ n := hnlo
    exact_mod_cast this
  have hnhi' : (n:ℚ) ≤ (2:ℚ)^(53:ℕ) - 1 := by
    have : n ≤ (2:ℤ)^53 - 1 := by omega
    exact_mod_cast this
  rw [abs_sub_lt_iff] at hdist
  obtain ⟨hd1, hd2⟩ := hdist
  have hmul_lo : ((2:ℚ)^(52:ℕ) + 1) * (2:ℚ)^e ≤ (n:ℚ) * (2:ℚ)^e :=
    mul_le_mul_of_nonneg_right hnlo' hepos.le
  have hmul_hi : (n:ℚ) * (2:ℚ)^e ≤ ((2:ℚ)^(53:ℕ) - 1) * (2:ℚ)^e :=
    mul_le_mul_of_nonneg_right hnhi' hepos.le
  have hexp_lo : ((2:ℚ)^(52:ℕ) + 1) * (2:ℚ)^e
      = (2:ℚ)^(52:ℕ) * (2:ℚ)^e + (2:ℚ)^e := by ring
  have hexp_hi : ((2:ℚ)^(53:ℕ) - 1) * (2:ℚ)^e
      = (2:ℚ)^(53:ℕ) * (2:ℚ)^e - (2:ℚ)^e := by ring
  have hq : 0 < q := by
    have h52 : (1:ℚ) ≤ (2:ℚ)^(52:ℕ) := by norm_num
    nlinarith
  have hz52 : (2:ℚ)^(52:ℕ) * (2:ℚ)^e = (2:ℚ)^(e + 52) := by
    rw [zpow_add₀ (by norm_num : (2:ℚ) ≠ 0)]
    rw [← zpow_natCast (2:ℚ) 52]
    ring
  have hz53 : (2:ℚ)^(53:ℕ) * (2:ℚ)^e = (2:ℚ)^(e + 52 + 1) := by
    rw [zpow_add₀ (by norm_num : (2:ℚ) ≠ 0), ← hz52, zpow_one,
        show ((2:ℚ)^(53:ℕ)) = (2:ℚ)^(52:ℕ) * 2 from by norm_num]
    ring
  have hlog : Int.log 2 q = e + 52 := by
    apply int_log2_eq q (e + 52) hq
    · rw [← hz52]
      linarith
    · rw [← hz53]
      linarith
  rw [roundDouble_of_pos q hq]
  simp only [roundDoublePos]
  rw [hlog, show e + 52 - 52 = e from by ring]
  have hnear : |q * (2:ℚ)^(-e) - (n:ℚ)| < 1/2 := by
    have hkey : q * (2:ℚ)^(-e) - (n:ℚ) = (q - (n:ℚ) * (2:ℚ)^e) * (2:ℚ)^(-e) := by
      have hp := two_zpow_mul_neg e
      calc q * (2:ℚ)^(-e) - (n:ℚ)
          = q * (2:ℚ)^(-e) - (n:ℚ) * ((2:ℚ)^e * (2:ℚ)^(-e)) := by rw [hp]; ring
        _ = (q - (n:ℚ) * (2:ℚ)^e) * (2:ℚ)^(-e) := by ring
    have hneg_pos : (0:ℚ) < (2:ℚ)^(-e) := zpow_pos (by norm_num) (-e)
    rw [hkey, abs_mul, abs_of_pos hneg_pos]
    have habs : |q - (n:ℚ) * (2:ℚ)^e| < (2:ℚ)^e / 2 := by
      rw [abs_sub_lt_iff]
      exact ⟨hd1, hd2⟩
    have := mul_lt_mul_of_pos_right habs hneg_pos
    calc |q - (n:ℚ) * (2:ℚ)^e| * (2:ℚ)^(-e)
        < ((2:ℚ)^e / 2) * (2:ℚ)^(-e) := this
      _ = 1/2 := by
          rw [div_mul_eq_mul_div, two_zpow_mul_neg e]
  rw [roundHalfEven_eq_near (q * (2:ℚ)^(-e)) n hnear]

/-- Relative error of double rounding: at most one part in 2^53. -/
theorem roundDouble_abs_sub (q : ℚ) (hq : 0 < q) :
    |roundDouble q - q| ≤ q / 2^53 := by
  rw [roundDouble_of_pos q hq]
  simp only [roundDoublePos]
  have hk : (2:ℚ)^(Int.log 2 q) ≤ q := by
    have := Int.zpow_log_le_self (b := 2) (R := ℚ) (by norm_num) hq
    push_cast at this
    exact this
  have hepos : (0:ℚ) < (2:ℚ)^(Int.log 2 q - 52) := zpow_pos (by norm_num) _
  have hnegpos : (0:ℚ) < (2:ℚ)^(-(Int.log 2 q - 52)) := zpow_pos (by norm_num) _
  have hh := roundHalfEven_abs_sub (q * (2:ℚ)^(-(Int.log 2 q - 52)))
  have hkey : ((roundHalfEven (q * (2:ℚ)^(-(Int.log 2 q - 52))) : ℤ) : ℚ) *
        (2:ℚ)^(Int.log 2 q - 52) - q
      = (((roundHalfEven (q * (2:ℚ)^(-(Int.log 2 q - 52))) : ℤ) : ℚ) -
          q * (2:ℚ)^(-(Int.log 2 q - 52))) * (2:ℚ)^(Int.log 2 q - 52) := by
    have hp := two_zpow_mul_neg (Int.log 2 q - 52)
    calc ((roundHalfEven (q * (2:ℚ)^(-(Int.log 2 q - 52))) : ℤ) : ℚ) *
          (2:ℚ)^(Int.log 2 q - 52) - q
        = ((roundHalfEven (q * (2:ℚ)^(-(Int.log 2 q - 52))) : ℤ) : ℚ) *
            (2:ℚ)^(Int.log 2 q - 52) -
            q * ((2:ℚ)^(Int.log 2 q - 52) * (2:ℚ)^(-(Int.log 2 q - 52))) := by
          rw [hp]; ring
      _ = _ := by ring
  rw [hkey, abs_mul, abs_of_pos hepos]
  have h1 : |((roundHalfEven (q * (2:ℚ)^(-(Int.log 2 q - 52))) : ℤ) : ℚ) -
      q * (2:ℚ)^(-(Int.log 2 q - 52))| * (2:ℚ)^(Int.log 2 q - 52) ≤
      (1/2) * (2:ℚ)^(Int.log 2 q - 52) := by
    exact mul_le_mul_of_nonneg_right hh hepos.le
  refine h1.trans ?_
  have hsplit : (2:ℚ)^(Int.log 2 q - 52) * (2:ℚ)^(52:ℕ) = (2:ℚ)^(Int.log 2 q) := by
    rw [← zpow_natCast (2:ℚ) 52, ← zpow_add₀ (by norm_num : (2:ℚ) ≠ 0)]
    congr 1
    omega
  rw [le_div_iff₀ (show (0:ℚ) < 2^53 by norm_num)]
  calc (1/2:ℚ) * (2:ℚ)^(Int.log 2 q - 52) * 2^53
      = (2:ℚ)^(Int.log 2 q - 52) * (2:ℚ)^(52:ℕ) := by
        rw [show ((2:ℚ)^(52:ℕ)) = (1/2:ℚ) * 2^53 by norm_num]
        ring
    _ = (2:ℚ)^(Int.log 2 q) := hsplit
    _ ≤ q := hk

/-- In the double-rounding model, scaling a dimension `d ≤ m` by the
(rounded) factor `A / m` never overshoots the target `A`, for the targets
the service uses (at most 2048). -/
theorem scaledDim_le_target (d A m : ℕ) (hm : 0 < m) (hA : 0 < A)
    (hA2048 : A ≤ 2048) (hdm : d ≤ m) : scaledDim d A m ≤ A := by
  unfold scaledDim
  have hmQ : (0:ℚ) < (m:ℚ) := by exact_mod_cast hm
  have hAQ : (0:ℚ) < (A:ℚ) := by exact_mod_cast hA
  have hA2048Q : (A:ℚ) ≤ 2048 := by exact_mod_cast hA2048
  have hu : (0:ℚ) < (A:ℚ) / (m:ℚ) := div_pos hAQ hmQ
  have hs := roundDouble_abs_sub ((A:ℚ)/(m:ℚ)) hu
  rw [abs_le] at hs
  have hs_hi : roundDouble ((A:ℚ)/(m:ℚ)) ≤ (A:ℚ)/m + ((A:ℚ)/m)/2^53 := by
    linarith [hs.2]
  have hudiv : ((A:ℚ)/m)/2^53 < (A:ℚ)/m := div_lt_self hu (by norm_num)
  have hs_pos : 0 < roundDouble ((A:ℚ)/(m:ℚ)) := by linarith [hs.1]
  rcases Nat.eq_zero_or_pos d with hd0 | hdpos
  · subst hd0
    simp [roundDouble]
  · have hdQ : (0:ℚ) < (d:ℚ) := by exact_mod_cast hdpos
    have hp_pos : 0 < (d:ℚ) * roundDouble ((A:ℚ)/(m:ℚ)) := mul_pos hdQ hs_pos
    have hdmQ : (d:ℚ) ≤ (m:ℚ) := by exact_mod_cast hdm
    have hmu : (m:ℚ) * ((A:ℚ)/m) = A := by field_simp
    have hp_le : (d:ℚ) * roundDouble ((A:ℚ)/(m:ℚ)) ≤ (A:ℚ) + (A:ℚ)/2^53 := by
      calc (d:ℚ) * roundDouble ((A:ℚ)/(m:ℚ))
          ≤ (m:ℚ) * roundDouble ((A:ℚ)/(m:ℚ)) :=
            mul_le_mul_of_nonneg_right hdmQ hs_pos.le
        _ ≤ (m:ℚ) * ((A:ℚ)/m + ((A:ℚ)/m)/2^53) :=
            mul_le_mul_of_nonneg_left hs_hi hmQ.le
        _ = (A:ℚ) + (A:ℚ)/2^53 := by
            rw [mul_add, hmu, ← mul_div_assoc, hmu]
    have hr := roundDouble_abs_sub _ hp_pos
    rw [abs_le] at hr
    have hpdiv : ((d:ℚ) * roundDouble ((A:ℚ)/(m:ℚ)))/2^53 <
        (d:ℚ) * roundDouble ((A:ℚ)/(m:ℚ)) := div_lt_self hp_pos (by norm_num)
    have hr0 : 0 ≤ roundDouble ((d:ℚ) * roundDouble ((A:ℚ)/(m:ℚ))) := by
      linarith [hr.1]
    have hc1 : (A:ℚ)/2^53 ≤ 2048/2^53 := by gcongr
    have hp_le' : (d:ℚ) * roundDouble ((A:ℚ)/(m:ℚ)) ≤ 2049 := by
      have : (2048:ℚ)/2^53 ≤ 1 := by norm_num
      linarith
    have hc3 : ((d:ℚ) * roundDouble ((A:ℚ)/(m:ℚ)))/2^53 ≤ 2049/2^53 := by
      gcongr
    have hc4 : (2049:ℚ)/2^53 + 2048/2^53 < 1 := by norm_num
    have hfin : roundDouble ((d:ℚ) * roundDouble ((A:ℚ)/(m:ℚ))) < (A:ℚ) + 1 := by
      linarith [hr.2]
    have hfloor : ⌊roundDouble ((d:ℚ) * roundDouble ((A:ℚ)/(m:ℚ)))⌋₊ < A + 1 := by
      rw [Nat.floor_lt hr0]
      push_cast
      linarith
    omega

/-- In the double-rounding model, scaling a dimension `d ≥ m` by the
(rounded) factor `A / m` produces at least `A - 1` (one unit below the
target can occur, e.g. `int(11 * (480 / 11)) = 479` in doubles). -/
theorem target_sub_one_le_scaledDim (d A m : ℕ) (hm : 0 < m) (hA : 0 < A)
    (hA2048 : A ≤ 2048) (hmd : m ≤ d) : A - 1 ≤ scaledDim d A m := by
  unfold scaledDim
  have hmQ : (0:ℚ) < (m:ℚ) := by exact_mod_cast hm
  have hAQ : (0:ℚ) < (A:ℚ) := by exact_mod_cast hA
  have hA2048Q : (A:ℚ) ≤ 2048 := by exact_mod_cast hA2048
  have hu : (0:ℚ) < (A:ℚ) / (m:ℚ) := div_pos hAQ hmQ
  have hs := roundDouble_abs_sub ((A:ℚ)/(m:ℚ)) hu
  rw [abs_le] at hs
  have hs_lo : (A:ℚ)/m - ((A:ℚ)/m)/2^53 ≤ roundDouble ((A:ℚ)/(m:ℚ)) := by
    linarith [hs.1]
  have hudiv : ((A:ℚ)/m)/2^53 < (A:ℚ)/m := div_lt_self hu (by norm_num)
  have hs_pos : 0 < roundDouble ((A:ℚ)/(m:ℚ)) := by linarith
  have hmdQ : (m:ℚ) ≤ (d:ℚ) := by exact_mod_cast hmd
  have hmu : (m:ℚ) * ((A:ℚ)/m) = A := by field_simp
  have hAdiv : (A:ℚ)/2^53 < (A:ℚ) := div_lt_self hAQ (by norm_num)
  have hp_ge : (A:ℚ) - (A:ℚ)/2^53 ≤ (d:ℚ) * roundDouble ((A:ℚ)/(m:ℚ)) := by
    calc (A:ℚ) - (A:ℚ)/2^53 = (m:ℚ) * ((A:ℚ)/m - ((A:ℚ)/m)/2^53) := by
          rw [mul_sub, hmu, ← mul_div_assoc, hmu]
      _ ≤ (m:ℚ) * roundDouble ((A:ℚ)/(m:ℚ)) :=
          mul_le_mul_of_nonneg_left hs_lo hmQ.le
      _ ≤ (d:ℚ) * roundDouble ((A:ℚ)/(m:ℚ)) :=
          mul_le_mul_of_nonneg_right hmdQ hs_pos.le
  have hp_pos : 0 < (d:ℚ) * roundDouble ((A:ℚ)/(m:ℚ)) := by linarith
  have hr := roundDouble_abs_sub _ hp_pos
  rw [abs_le] at hr
  have hr_lo : (d:ℚ) * roundDouble ((A:ℚ)/(m:ℚ)) -
      ((d:ℚ) * roundDouble ((A:ℚ)/(m:ℚ)))/2^53 ≤
      roundDouble ((d:ℚ) * roundDouble ((A:ℚ)/(m:ℚ))) := by
    linarith [hr.1]
  have hmono : ((A:ℚ) - (A:ℚ)/2^53) * (1 - 1/2^53) ≤
      ((d:ℚ) * roundDouble ((A:ℚ)/(m:ℚ))) * (1 - 1/2^53) :=
    mul_le_mul_of_nonneg_right hp_ge (by norm_num)
  have hexp : ((d:ℚ) * roundDouble ((A:ℚ)/(m:ℚ))) * (1 - 1/2^53) =
      (d:ℚ) * roundDouble ((A:ℚ)/(m:ℚ)) -
        ((d:ℚ) * roundDouble ((A:ℚ)/(m:ℚ)))/2^53 := by ring
  have hexp2 : ((A:ℚ) - (A:ℚ)/2^53) * (1 - 1/2^53) =
      (A:ℚ) - 2*((A:ℚ)/2^53) + ((A:ℚ)/2^53)/2^53 := by ring
  rw [hexp, hexp2] at hmono
  have hc1 : (A:ℚ)/2^53 ≤ 2048/2^53 := by gcongr
  have hsmall : (2:ℚ)*(2048/2^53) < 1 := by norm_num
  have htail : (0:ℚ) ≤ ((A:ℚ)/2^53)/2^53 := by positivity
  have hfin : (A:ℚ) - 1 < roundDouble ((d:ℚ) * roundDouble ((A:ℚ)/(m:ℚ))) := by
    linarith
  apply Nat.le_floor
  have hcast : (((A - 1 : ℕ)):ℚ) = (A:ℚ) - 1 := by
    have h1 : (1:ℕ) ≤ A := hA
    push_cast [h1]
    ring
  rw [hcast]
  linarith

/-- Scaling both sides of an image by the rounded factor `A / min`:
the short side of the result lies between `A - 1` and `A`. -/
theorem min_scaled_pair_bounds (w h A : ℕ) (hA : 0 < A) (hA2048 : A ≤ 2048)
    (hm : 0 < min w h) :
    A - 1 ≤ min (scaledDim w A (min w h)) (scaledDim h A (min w h)) ∧
    min (scaledDim w A (min w h)) (scaledDim h A (min w h)) ≤ A := by
  rcases le_total w h with hwh | hhw
  · rw [min_eq_left hwh] at hm ⊢
    refine ⟨le_min ?_ ?_, le_trans (min_le_left _ _) ?_⟩
    · exact target_sub_one_le_scaledDim w A w hm hA hA2048 le_rfl
    · exact target_sub_one_le_scaledDim h A w hm hA hA2048 hwh
    · exact scaledDim_le_target w A w hm hA hA2048 le_rfl
  · rw [min_eq_right hhw] at hm ⊢
    refine ⟨le_min ?_ ?_, le_trans (min_le_right _ _) ?_⟩
    · exact target_sub_one_le_scaledDim w A h hm hA hA2048 hhw
    · exact target_sub_one_le_scaledDim h A h hm hA hA2048 le_rfl
    · exact scaledDim_le_target h A h hm hA hA2048 le_rfl

/-- Scaling both sides of an image by the rounded factor `A / max`:
the long side of the result lies between `A - 1` and `A`. -/
theorem max_scaled_pair_bounds (w h A : ℕ) (hA : 0 < A) (hA2048 : A ≤ 2048)
    (hm : 0 < max w h) :
    A - 1 ≤ max (scaledDim w A (max w h)) (scaledDim h A (max w h)) ∧
    max (scaledDim w A (max w h)) (scaledDim h A (max w h)) ≤ A := by
  rcases le_total w h with hwh | hhw
  · rw [max_eq_right hwh] at hm ⊢
    refine ⟨le_trans ?_ (le_max_right _ _), max_le ?_ ?_⟩
    · exact target_sub_one_le_scaledDim h A h hm hA hA2048 le_rfl
    · exact scaledDim_le_target w A h hm hA hA2048 hwh
    · exact scaledDim_le_target h A h hm hA hA2048 le_rfl
  · rw [max_eq_left hhw] at hm ⊢
    refine ⟨le_trans ?_ (le_max_left _ _), max_le ?_ ?_⟩
    · exact target_sub_one_le_scaledDim w A w hm hA hA2048 le_rfl
    · exact scaledDim_le_target w A w hm hA hA2048 le_rfl
    · exact scaledDim_le_target h A w hm hA hA2048 hhw

/-- `480 / 11` rounded to double: mantissa `6141272219141585`, exponent
`-47` (the exact value `43.6363...` is not representable). -/
theorem roundDouble_480_div_11 :
    roundDouble ((480:ℚ)/11) = 6141272219141585 * (2:ℚ)^(-47:ℤ) := by
  have h := roundDouble_eq_near ((480:ℚ)/11) 6141272219141585 (-47)
    (by norm_num) (by norm_num)
    (by rw [abs_sub_lt_iff]; constructor <;> norm_num)
  rw [h]
  norm_num

/-- `11 * fl(480 / 11)` rounded to double is `8444249301319679 * 2^-44`,
which is strictly below `480`. -/
theorem roundDouble_11_mul_factor :
    roundDouble ((11:ℚ) * (6141272219141585 * (2:ℚ)^(-47:ℤ))) =
      8444249301319679 * (2:ℚ)^(-44:ℤ) := by
  have h := roundDouble_eq_near ((11:ℚ) * (6141272219141585 * (2:ℚ)^(-47:ℤ)))
    8444249301319679 (-44)
    (by norm_num) (by norm_num)
    (by rw [abs_sub_lt_iff]; constructor <;> norm_num)
  rw [h]
  norm_num

/-- `int(11 * (480 / 11))` in IEEE doubles is `479`, not `480`. -/
theorem scaledDim_11_480 : scaledDim 11 480 11 = 479 := by
  unfold scaledDim
  push_cast
  rw [roundDouble_480_div_11, roundDouble_11_mul_factor]
  rw [Nat.floor_eq_iff (by norm_num)]
  constructor <;> norm_num

/-- `480 / 100` rounded to double: mantissa `5404319552844595`, exponent
`-50` (the exact value `4.8` is not representable). -/
theorem roundDouble_480_div_100 :
    roundDouble ((480:ℚ)/100) = 5404319552844595 * (2:ℚ)^(-50:ℤ) := by
  have h := roundDouble_eq_near ((480:ℚ)/100) 5404319552844595 (-50)
    (by norm_num) (by norm_num)
    (by rw [abs_sub_lt_iff]; constructor <;> norm_num)
  rw [h]
  norm_num

/-- `100 * fl(480 / 100)` rounds up to exactly `480`. -/
theorem roundDouble_100_mul_factor :
    roundDouble ((100:ℚ) * (5404319552844595 * (2:ℚ)^(-50:ℤ))) = 480 := by
  have h := roundDouble_eq_near ((100:ℚ) * (5404319552844595 * (2:ℚ)^(-50:ℤ)))
    8444249301319680 (-44)
    (by norm_num) (by norm_num)
    (by rw [abs_sub_lt_iff]; constructor <;> norm_num)
  rw [h]
  norm_num

/-- `200 * fl(480 / 100)` rounds up to exactly `960`. -/
theorem roundDouble_200_mul_factor :
    roundDouble ((200:ℚ) * (5404319552844595 * (2:ℚ)^(-50:ℤ))) = 960 := by
  have h := roundDouble_eq_near ((200:ℚ) * (5404319552844595 * (2:ℚ)^(-50:ℤ)))
    8444249301319680 (-43)
    (by norm_num) (by norm_num)
    (by rw [abs_sub_lt_iff]; constructor <;> norm_num)
  rw [h]
  norm_num

/-- `int(100 * (480 / 100))` in IEEE doubles is exactly `480`. -/
theorem scaledDim_100_480 : scaledDim 100 480 100 = 480 := by
  unfold scaledDim
  push_cast
  rw [roundDouble_480_div_100, roundDouble_100_mul_factor]
  rw [Nat.floor_eq_iff (by norm_num)]
  constructor <;> norm_num

/-- `int(200 * (480 / 100))` in IEEE doubles is exactly `960`. -/
theorem scaledDim_200_480 : scaledDim 200 480 100 = 960 := by
  unfold scaledDim
  push_cast
  rw [roundDouble_480_div_100, roundDouble_200_mul_factor]
  rw [Nat.floor_eq_iff (by norm_num)]
  constructor <;> norm_num

/-- A failing `Image.resize` inside `validate_image` is not recovered
anywhere: it escapes to the outer handler and becomes the InvalidImage
error. -/
theorem validate_image_resize_error (ops : PILOps) (img : Img) (e : String)
    (t : ℕ × ℕ)
    (h1 : ops.openImage = .ok img)
    (h2 : ops.readOrientation img = .ok none)
    (h3 : img.mode = "RGB")
    (h4 : resize_target img.width img.height = some t)
    (h5 : ops.resize img t = .error e) :
    validate_image ops = .error ("Invalid or corrupted image: " ++ e) := by
  have hnorm : normalize_exif_orientation ops img = img := by
    unfold normalize_exif_orientation
    rw [h2]
  have hconv : convert_rgb img = img := by
    unfold convert_rgb
    rw [if_pos h3]
  have henf : enforce_dimensions_pil ops img = .error e := by
    unfold enforce_dimensions_pil
    rw [h4]
    exact h5
  have hbody : validate_image_body ops = .error e := by
    unfold validate_image_body
    rw [h1]
    show enforce_dimensions_pil ops
      (convert_rgb (normalize_exif_orientation ops img)) = .error e
    rw [hnorm, hconv, henf]
  unfold validate_image
  rw [hbody]

/-! ### Claim theorems: detection orchestration -/

/-- C3 (amended): `extract_embedding` tries the backends in order and
stops at the first one returning a non-empty result, tagging the outcome
with that backend; both error kinds from earlier backends only make the
loop continue, and their failures never surface once a later backend
succeeds.  When no backend produces a valid result the operation re-raises
the last backend error if one was raised, keeping its original exception
type: a re-raised ValueError is classified by the endpoint's message
dispatch - NoFaceDetected exactly when its lowered message contains
"no face" or "could not find", else MultipleFacesDetected when it contains
"multiple", else ModelError - while a non-ValueError exception escapes
that handler and surfaces as an InternalError.  When no backend raised,
the operation fails with the generic all-backends-failed ValueError, which
is classified as NoFaceDetected. -/
theorem claim_C3_amended_backend_fallback :
    (∀ (attempt : String → Except PyExc (List Face)) pre b post faces
        enforce_detection,
      detector_backends = pre ++ b :: post →
      (∀ x ∈ pre, fails_or_empty (attempt x)) →
      attempt b = .ok faces → faces ≠ [] →
      extract_embedding attempt enforce_detection =
        process_faces faces (some b) enforce_detection) ∧
    (∀ (attempt : String → Except PyExc (List Face)) enforce_detection,
      (∀ x ∈ detector_backends, fails_or_empty (attempt x)) →
      extract_embedding attempt enforce_detection =
        .error (exhausted_error
          (last_error_of attempt detector_backends none))) ∧
    (∀ exc : PyExc, exc.is_value_error = false →
      classify_extract_error (.backendErr exc) = .INTERNAL_ERROR) ∧
    (∀ exc : PyExc, exc.is_value_error = true →
      (classify_extract_error (.backendErr exc) = .NO_FACE_DETECTED ↔
        (containsStr (pyLower exc.msg) "no face" = true ∨
          containsStr (pyLower exc.msg) "could not find" = true))) ∧
    (∀ exc : PyExc, exc.is_value_error = true →
      containsStr (pyLower exc.msg) "no face" = false →
      containsStr (pyLower exc.msg) "could not find" = false →
      containsStr (pyLower exc.msg) "multiple" = true →
      classify_extract_error (.backendErr exc) = .MULTIPLE_FACES_DETECTED) ∧
    (∀ exc : PyExc, exc.is_value_error = true →
      containsStr (pyLower exc.msg) "no face" = false →
      containsStr (pyLower exc.msg) "could not find" = false →
      containsStr (pyLower exc.msg) "multiple" = false →
      classify_extract_error (.backendErr exc) = .MODEL_ERROR) ∧
    classify_extract_error .allBackendsFailed = .NO_FACE_DETECTED := by
  refine ⟨?_, ?_, ?_, ?_, ?_, ?_, ?_⟩
  · intro attempt pre b post faces enforce_detection hdec hpre hb hne
    obtain ⟨f, fs, rfl⟩ : ∃ f fs, faces = f :: fs := by
      cases faces with
      | nil => exact absurd rfl hne
      | cons f fs => exact ⟨f, fs, rfl⟩
    unfold extract_embedding
    rw [hdec, try_backends_first_success attempt pre b post (f :: fs) _
      hpre hb hne]
    rfl
  · intro attempt enforce_detection h
    obtain ⟨res, hrec, hres⟩ :=
      try_backends_exhausted attempt detector_backends ⟨none, none, none⟩ h
    unfold extract_embedding
    rw [hrec]
    rcases hres with h1 | h1
    · rw [h1]
    · rw [h1]
      rfl
  · intro exc h
    obtain ⟨v, m⟩ := exc
    replace h : v = false := h
    subst h
    rfl
  · intro exc hv
    obtain ⟨v, m⟩ := exc
    replace hv : v = true := hv
    subst hv
    show classify_extract_error (.backendErr ⟨true, m⟩) = _ ↔
      (containsStr (pyLower m) "no face" = true ∨
        containsStr (pyLower m) "could not find" = true)
    unfold classify_extract_error SvcErr.message SvcErr.is_value_error
    rw [if_pos rfl]
    by_cases hc : (containsStr (pyLower m) "no face" ||
        containsStr (pyLower m) "could not find") = true
    · rw [if_pos hc]
      rw [Bool.or_eq_true] at hc
      simp [hc]
    · rw [if_neg hc]
      rw [Bool.or_eq_true] at hc
      constructor
      · intro hcontra
        by_cases hm : containsStr (pyLower m) "multiple" = true
        · rw [if_pos hm] at hcontra
          exact absurd hcontra (by simp)
        · rw [if_neg hm] at hcontra
          exact absurd hcontra (by simp)
      · intro hor
        exact absurd hor hc
  · intro exc hv h1 h2 h3
    obtain ⟨v, m⟩ := exc
    replace hv : v = true := hv
    subst hv
    replace h1 : containsStr (pyLower m) "no face" = false := h1
    replace h2 : containsStr (pyLower m) "could not find" = false := h2
    replace h3 : containsStr (pyLower m) "multiple" = true := h3
    show classify_extract_error (.backendErr ⟨true, m⟩) = _
    unfold classify_extract_error SvcErr.message SvcErr.is_value_error
    rw [if_pos rfl, if_neg (by rw [h1, h2]; simp), if_pos h3]
  · intro exc hv h1 h2 h3
    obtain ⟨v, m⟩ := exc
    replace hv : v = true := hv
    subst hv
    replace h1 : containsStr (pyLower m) "no face" = false := h1
    replace h2 : containsStr (pyLower m) "could not find" = false := h2
    replace h3 : containsStr (pyLower m) "multiple" = false := h3
    show classify_extract_error (.backendErr ⟨true, m⟩) = _
    unfold classify_extract_error SvcErr.message SvcErr.is_value_error
    rw [if_pos rfl, if_neg (by rw [h1, h2]; simp), if_neg (by rw [h3]; simp)]
  · rfl

/-- Witness for C3 (the scenario of the spec): with the first two backends
reporting a no-face failure and the third returning one face at confidence
0.9, the operation returns that face tagged with the third backend. -/
theorem claim_C3_amended_backend_fallback_witness :
    extract_embedding sampleAttemptThirdBackend true =
      process_faces [⟨[2], some (9/10), some ⟨1, 2, 3, 4⟩⟩]
        (some "opencv") true ∧
    process_faces [⟨[2], some (9/10), some ⟨1, 2, 3, 4⟩⟩]
        (some "opencv") true =
      .ok ([2], ⟨1, 9/10, ⟨1, 2, 3, 4⟩, some "opencv"⟩) := by
  constructor
  · refine claim_C3_amended_backend_fallback.1 sampleAttemptThirdBackend
      ["retinaface", "mtcnn"] "opencv" [] _ true rfl ?_ rfl (by simp)
    intro x hx
    rcases List.mem_cons.mp hx with h | hx2
    · subst h; exact Or.inl ⟨_, rfl⟩
    · rcases List.mem_cons.mp hx2 with h | h3
      · subst h; exact Or.inl ⟨_, rfl⟩
      · exact absurd h3 (List.not_mem_nil x)
  · have hpred : confident_pred ⟨[2], some (9/10), some ⟨1, 2, 3, 4⟩⟩ = true := by
      unfold confident_pred FACE_DETECTION_CONFIDENCE
      rw [decide_eq_true_eq]
      norm_num
    have hflt : List.filter confident_pred
        [(⟨[2], some (9/10), some ⟨1, 2, 3, 4⟩⟩ : Face)] =
        [⟨[2], some (9/10), some ⟨1, 2, 3, 4⟩⟩] := by
      rw [List.filter_cons, if_pos hpred]
      rfl
    have hfil : confident_filter [⟨[2], some (9/10), some ⟨1, 2, 3, 4⟩⟩] =
        [⟨[2], some (9/10), some ⟨1, 2, 3, 4⟩⟩] := by
      rw [confident_filter_of_filter_ne_nil _ (by rw [hflt]; simp), hflt]
    simp only [process_faces]
    rw [if_neg (by simp :
      ¬([(⟨[2], some (9/10), some ⟨1, 2, 3, 4⟩⟩ : Face)].length = 0))]
    rw [hfil]
    by_cases hcond : 1 <
        [(⟨[2], some (9/10), some ⟨1, 2, 3, 4⟩⟩ : Face)].length ∧ True
    · exact absurd hcond (by simp)
    · rw [if_neg hcond]
      rfl

/-- C4: the faces of the winning backend are filtered to those with
confidence at least FACE_DETECTION_CONFIDENCE (a missing confidence reads
as 0.99); whenever the filter removes every face, the unfiltered list is
used instead, so the set entering selection is never empty and the
selection stage can only fail with a MultipleFaces error - never because
no face cleared the confidence bar. -/
theorem claim_C4_confidence_filter_relaxed
    (faces : List Face) (hne : faces ≠ []) :
    (faces.filter confident_pred ≠ [] →
      confident_filter faces = faces.filter confident_pred) ∧
    (faces.filter confident_pred = [] → confident_filter faces = faces) ∧
    confident_filter faces ≠ [] ∧
    (∀ used_backend enforce_detection e,
      process_faces faces used_backend enforce_detection = .error e →
      ∃ n, e = .multipleFaces n) := by
  refine ⟨confident_filter_of_filter_ne_nil faces,
    confident_filter_of_filter_nil faces,
    confident_filter_ne_nil faces hne, ?_⟩
  intro used_backend enforce_detection e h
  have hlen : ¬(faces.length = 0) := fun hc => hne (List.length_eq_zero.mp hc)
  simp only [process_faces] at h
  rw [if_neg hlen] at h
  by_cases hcond : 1 < (confident_filter faces).length ∧
      enforce_detection = true
  · rw [if_pos hcond] at h
    refine ⟨(confident_filter faces).length, ?_⟩
    injection h with h2
    exact h2.symm
  · rw [if_neg hcond] at h
    rcases hf : confident_filter faces with _ | ⟨f, rest⟩
    · exact absurd hf (confident_filter_ne_nil faces hne)
    · rw [hf] at h
      simp at h

/-- Witness for C4: a single face below the confidence bar is filtered
out, and the fallback reinstates the unfiltered list. -/
theorem claim_C4_confidence_filter_relaxed_witness :
    List.filter confident_pred [(⟨[3], some (1/10), none⟩ : Face)] = [] ∧
    confident_filter [(⟨[3], some (1/10), none⟩ : Face)] =
      [⟨[3], some (1/10), none⟩] := by
  have hpred : confident_pred ⟨[3], some (1/10), none⟩ = false := by
    unfold confident_pred FACE_DETECTION_CONFIDENCE
    rw [decide_eq_false_iff_not]
    simp only [Option.getD_some]
    norm_num
  have hflt : List.filter confident_pred
      [(⟨[3], some (1/10), none⟩ : Face)] = [] := by
    rw [List.filter_cons, if_neg (by rw [hpred]; simp)]
    rfl
  exact ⟨hflt,
    (claim_C4_confidence_filter_relaxed _ (by simp)).2.1 hflt⟩

/-- C5: when more than one face survives the confidence filter and
detection is enforced, face selection fails with MultipleFaces carrying
the remaining count; otherwise the highest-confidence remaining face is
selected and the operation returns its embedding together with the total
face count, the selected confidence, its bounding box and the backend
identifier. -/
theorem claim_C5_multiple_faces_and_selection
    (faces : List Face) (used_backend : Option String)
    (enforce_detection : Bool) (hne : faces ≠ []) :
    (1 < (confident_filter faces).length ∧ enforce_detection = true →
      process_faces faces used_backend enforce_detection =
        .error (.multipleFaces (confident_filter faces).length)) ∧
    (¬(1 < (confident_filter faces).length ∧ enforce_detection = true) →
      ∃ sel, sel ∈ confident_filter faces ∧
        (∀ f ∈ confident_filter faces,
          f.face_confidence.getD 0 ≤ sel.face_confidence.getD 0) ∧
        process_faces faces used_backend enforce_detection =
          .ok (sel.embedding,
            { face_count := faces.length,
              face_confidence := sel.face_confidence.getD (99/100),
              facial_area := sel.facial_area.getD ⟨0, 0, 0, 0⟩,
              detector_backend := used_backend })) := by
  have hlen : ¬(faces.length = 0) := fun hc => hne (List.length_eq_zero.mp hc)
  constructor
  · intro hcond
    simp only [process_faces]
    rw [if_neg hlen, if_pos hcond]
  · intro hcond
    rcases hf : confident_filter faces with _ | ⟨f, rest⟩
    · exact absurd hf (confident_filter_ne_nil faces hne)
    · rw [hf] at hcond
      refine ⟨pyMaxBy f rest, ?_, ?_, ?_⟩
      · rcases pyMaxBy_mem f rest with h | h
        · rw [h]; exact List.mem_cons_self f rest
        · exact List.mem_cons_of_mem f h
      · intro g hg
        rcases List.mem_cons.mp hg with h | h
        · rw [h]; exact (pyMaxBy_ge f rest).1
        · exact (pyMaxBy_ge f rest).2 g h
      · simp only [process_faces]
        rw [if_neg hlen, hf, if_neg hcond]

/-- Witness for C5: two faces above the confidence bar with detection
enforced produce a MultipleFaces error carrying count 2. -/
theorem claim_C5_multiple_faces_and_selection_witness :
    (1 < (confident_filter [(⟨[5], some (9/10), none⟩ : Face),
        ⟨[6], some (8/10), none⟩]).length ∧ true = true) ∧
    process_faces [(⟨[5], some (9/10), none⟩ : Face),
        ⟨[6], some (8/10), none⟩] (some "retinaface") true =
      .error (.multipleFaces (confident_filter
        [(⟨[5], some (9/10), none⟩ : Face), ⟨[6], some (8/10), none⟩]).length) := by
  have hA : confident_pred ⟨[5], some (9/10), none⟩ = true := by
    unfold confident_pred FACE_DETECTION_CONFIDENCE
    rw [decide_eq_true_eq]
    simp only [Option.getD_some]
    norm_num
  have hB : confident_pred ⟨[6], some (8/10), none⟩ = true := by
    unfold confident_pred FACE_DETECTION_CONFIDENCE
    rw [decide_eq_true_eq]
    simp only [Option.getD_some]
    norm_num
  have hflt : List.filter confident_pred
      [(⟨[5], some (9/10), none⟩ : Face), ⟨[6], some (8/10), none⟩] =
      [⟨[5], some (9/10), none⟩, ⟨[6], some (8/10), none⟩] := by
    rw [List.filter_cons, if_pos hA, List.filter_cons, if_pos hB]
    rfl
  have hfil : confident_filter
      [(⟨[5], some (9/10), none⟩ : Face), ⟨[6], some (8/10), none⟩] =
      [⟨[5], some (9/10), none⟩, ⟨[6], some (8/10), none⟩] := by
    rw [confident_filter_of_filter_ne_nil _ (by rw [hflt]; simp), hflt]
  have hcond : 1 < (confident_filter
      [(⟨[5], some (9/10), none⟩ : Face), ⟨[6], some (8/10), none⟩]).length ∧
      true = true := by
    rw [hfil]
    exact ⟨by simp, rfl⟩
  exact ⟨hcond, (claim_C5_multiple_faces_and_selection _ _ true
    (by simp)).1 hcond⟩

/-- C3 counterexample: the claim says exhaustion always fails with a
NoFaceDetected error, but when every backend raises a non-face,
non-ValueError exception (here a RuntimeError-style "cuda out of memory")
the code re-raises the last such exception unchanged, it escapes the
endpoint's `except ValueError` message dispatch, and the outer handler
surfaces it as INTERNAL_ERROR - not NO_FACE_DETECTED. -/
theorem claim_C3_counterexample :
    extract_embedding (fun _ => .error ⟨false, "cuda out of memory"⟩) true =
      .error (.backendErr ⟨false, "cuda out of memory"⟩) ∧
    classify_extract_error (.backendErr ⟨false, "cuda out of memory"⟩) =
      .INTERNAL_ERROR := by
  constructor
  · rfl
  · rfl

/-- C10: an all-zero 512-dimensional embedding passes the request
validator (only the length is checked), yet under the cosine and
euclidean_l2 metrics the unguarded division by its zero norm makes the
distance and the similarity NaN instead of a typed error, and
`is_same_person` then evaluates to false. -/
theorem claim_C10_zero_embedding_nan :
    validate_embedding_dimensions (List.replicate 512 (0:ℚ)) =
      .ok (List.replicate 512 (0:ℚ)) ∧
    validate_embedding_dimensions (1 :: List.replicate 511 (0:ℚ)) =
      .ok (1 :: List.replicate 511 (0:ℚ)) ∧
    (∃ r, compare_embeddings (List.replicate 512 (0:ℚ))
        (1 :: List.replicate 511 0) "cosine" none = .ok r ∧
      r.distance = .nan ∧ r.similarity = .nan ∧ r.is_same_person = false) ∧
    (∃ r, compare_embeddings (List.replicate 512 (0:ℚ))
        (1 :: List.replicate 511 0) "euclidean_l2" none = .ok r ∧
      r.distance = .nan ∧ r.similarity = .nan ∧ r.is_same_person = false) := by
  have hz : dotQ (List.replicate 512 (0:ℚ)) (List.replicate 512 0) = 0 :=
    dotQ_replicate_zero_left _ _
  have hzu : dotQ (List.replicate 512 (0:ℚ)) (1 :: List.replicate 511 0) = 0 :=
    dotQ_replicate_zero_left _ _
  refine ⟨?_, ?_, ?_, ?_⟩
  · unfold validate_embedding_dimensions
    rw [List.length_replicate, if_neg (by norm_num : ¬(512 ≠ 512))]
  · unfold validate_embedding_dimensions
    rw [List.length_cons, List.length_replicate,
      if_neg (by norm_num : ¬(511 + 1 ≠ 512))]
  · have hsc : scipyCosine (List.replicate 512 (0:ℚ))
        (1 :: List.replicate 511 0) = .nan := by
      simp only [scipyCosine]
      rw [hzu, hz, zero_mul, FVal.sqrtF_num_nonneg 0 le_rfl, ratSqrt_zero,
        FVal.div_num, if_pos rfl, FVal.sub_nan_right]
    have hdist : computeDistance "cosine" (List.replicate 512 (0:ℚ))
        (1 :: List.replicate 511 0) = .ok .nan := by
      unfold computeDistance
      rw [if_pos rfl, hsc]
    refine ⟨comparison_result "cosine" .nan
        ((none : Option ℚ).getD (DEFAULT_THRESHOLDS "cosine")), ?_, ?_, ?_, ?_⟩
    · unfold compare_embeddings
      rw [hdist]
    all_goals rw [comparison_result_nan]
  · have hdist : computeDistance "euclidean_l2" (List.replicate 512 (0:ℚ))
        (1 :: List.replicate 511 0) = .ok .nan := by
      unfold computeDistance
      rw [if_neg (by decide), if_neg (by decide), if_pos rfl]
      unfold euclideanL2Dist
      rw [l2NormalizeF_zero512, l2NormalizeF_cons,
        show (512:ℕ) = 511 + 1 from rfl, List.replicate_succ,
        List.zipWith_cons_cons, FVal.sub_nan_left, sumSqF_nan_head,
        FVal.sqrtF_nan]
    refine ⟨comparison_result "euclidean_l2" .nan
        ((none : Option ℚ).getD (DEFAULT_THRESHOLDS "euclidean_l2")),
      ?_, ?_, ?_, ?_⟩
    · unfold compare_embeddings
      rw [hdist]
    all_goals rw [comparison_result_nan]

/-! ### Claim theorems: image preprocessing and download -/

/-- C6 (amended): when the short side is below MIN_IMAGE_DIMENSION (and
nonzero) the image is upscaled uniformly by the double-precision factor
`MIN_IMAGE_DIMENSION / min`; because `int(d * (target / current))` is
computed in IEEE doubles and truncated, the output short side is
MIN_IMAGE_DIMENSION up to one unit of rounding (exactly MIN or MIN - 1),
not always exactly MIN. Otherwise, when the long side exceeds
MAX_IMAGE_DIMENSION, the downscale (long side becomes MAX or MAX - 1) is
applied only if the float-computed short side stays at least
MIN_IMAGE_DIMENSION and is skipped entirely otherwise; when neither
condition holds the dimensions are untouched. -/
theorem claim_C6_amended_dimension_enforcement (width height : ℕ) :
    (min width height < MIN_IMAGE_DIMENSION ∧ 0 < min width height →
      enforce_dimensions width height =
        (scaledDim width MIN_IMAGE_DIMENSION (min width height),
          scaledDim height MIN_IMAGE_DIMENSION (min width height)) ∧
      MIN_IMAGE_DIMENSION - 1 ≤
        min (enforce_dimensions width height).1
          (enforce_dimensions width height).2 ∧
      min (enforce_dimensions width height).1
          (enforce_dimensions width height).2 ≤ MIN_IMAGE_DIMENSION) ∧
    (¬(min width height < MIN_IMAGE_DIMENSION ∧ 0 < min width height) →
      MAX_IMAGE_DIMENSION < max width height →
      (MIN_IMAGE_DIMENSION ≤
          min (scaledDim width MAX_IMAGE_DIMENSION (max width height))
            (scaledDim height MAX_IMAGE_DIMENSION (max width height)) →
        enforce_dimensions width height =
          (scaledDim width MAX_IMAGE_DIMENSION (max width height),
            scaledDim height MAX_IMAGE_DIMENSION (max width height)) ∧
        MAX_IMAGE_DIMENSION - 1 ≤
          max (enforce_dimensions width height).1
            (enforce_dimensions width height).2 ∧
        max (enforce_dimensions width height).1
            (enforce_dimensions width height).2 ≤ MAX_IMAGE_DIMENSION) ∧
      (¬(MIN_IMAGE_DIMENSION ≤
          min (scaledDim width MAX_IMAGE_DIMENSION (max width height))
            (scaledDim height MAX_IMAGE_DIMENSION (max width height))) →
        enforce_dimensions width height = (width, height))) ∧
    (¬(min width height < MIN_IMAGE_DIMENSION ∧ 0 < min width height) →
      ¬(MAX_IMAGE_DIMENSION < max width height) →
      enforce_dimensions width height = (width, height)) := by
  refine ⟨?_, ?_, ?_⟩
  · intro hcond
    have he : enforce_dimensions width height =
        (scaledDim width MIN_IMAGE_DIMENSION (min width height),
          scaledDim height MIN_IMAGE_DIMENSION (min width height)) := by
      simp only [enforce_dimensions, resize_target]
      rw [if_pos hcond, Option.getD_some]
    refine ⟨he, ?_, ?_⟩ <;> rw [he]
    · exact (min_scaled_pair_bounds width height MIN_IMAGE_DIMENSION
        (by norm_num [MIN_IMAGE_DIMENSION]) (by norm_num [MIN_IMAGE_DIMENSION])
        hcond.2).1
    · exact (min_scaled_pair_bounds width height MIN_IMAGE_DIMENSION
        (by norm_num [MIN_IMAGE_DIMENSION]) (by norm_num [MIN_IMAGE_DIMENSION])
        hcond.2).2
  · intro hcond hmax
    constructor
    · intro hok
      have he : enforce_dimensions width height =
          (scaledDim width MAX_IMAGE_DIMENSION (max width height),
            scaledDim height MAX_IMAGE_DIMENSION (max width height)) := by
        simp only [enforce_dimensions, resize_target]
        rw [if_neg hcond, if_pos hmax, if_pos hok, Option.getD_some]
      refine ⟨he, ?_, ?_⟩ <;> rw [he]
      · exact (max_scaled_pair_bounds width height MAX_IMAGE_DIMENSION
          (by norm_num [MAX_IMAGE_DIMENSION]) (by norm_num [MAX_IMAGE_DIMENSION])
          (lt_trans (by norm_num [MAX_IMAGE_DIMENSION]) hmax)).1
      · exact (max_scaled_pair_bounds width height MAX_IMAGE_DIMENSION
          (by norm_num [MAX_IMAGE_DIMENSION]) (by norm_num [MAX_IMAGE_DIMENSION])
          (lt_trans (by norm_num [MAX_IMAGE_DIMENSION]) hmax)).2
    · intro hno
      simp only [enforce_dimensions, resize_target]
      rw [if_neg hcond, if_pos hmax, if_neg hno, Option.getD_none]
  · intro hcond hmax
    simp only [enforce_dimensions, resize_target]
    rw [if_neg hcond, if_neg hmax, Option.getD_none]

/-- Witness for C6 (amended): a 100 x 200 image is upscaled to 480 x 960
(here the double rounding happens to land exactly on the minimum), and the
short side is within the proved band [MIN - 1, MIN]. -/
theorem claim_C6_amended_dimension_enforcement_witness :
    (min 100 200 < MIN_IMAGE_DIMENSION ∧ 0 < min 100 200) ∧
    enforce_dimensions 100 200 = (480, 960) ∧
    MIN_IMAGE_DIMENSION - 1 ≤
      min (enforce_dimensions 100 200).1 (enforce_dimensions 100 200).2 ∧
    min (enforce_dimensions 100 200).1 (enforce_dimensions 100 200).2 ≤
      MIN_IMAGE_DIMENSION := by
  have hcond : min 100 200 < MIN_IMAGE_DIMENSION ∧ 0 < min 100 200 := by
    constructor <;> norm_num [MIN_IMAGE_DIMENSION]
  obtain ⟨he, hlo, hhi⟩ :=
    (claim_C6_amended_dimension_enforcement 100 200).1 hcond
  refine ⟨hcond, ?_, hlo, hhi⟩
  rw [he]
  rw [show min 100 200 = 100 from by norm_num,
      show MIN_IMAGE_DIMENSION = 480 from rfl]
  rw [scaledDim_100_480, scaledDim_200_480]

/-- Counterexample to the literal C6 claim that the short side becomes
exactly MIN_IMAGE_DIMENSION: an 11 x 11 image is upscaled to 479 x 479,
because `int(11 * (480 / 11))` evaluates to 479 in IEEE doubles
(`480 / 11` rounds down, and truncation keeps the result below 480). -/
theorem claim_C6_counterexample :
    enforce_dimensions 11 11 = (479, 479) ∧
    min (enforce_dimensions 11 11).1 (enforce_dimensions 11 11).2 ≠
      MIN_IMAGE_DIMENSION := by
  have he : enforce_dimensions 11 11 = (479, 479) := by
    simp only [enforce_dimensions, resize_target]
    rw [min_self, if_pos (by norm_num [MIN_IMAGE_DIMENSION]),
      Option.getD_some]
    rw [show MIN_IMAGE_DIMENSION = 480 from rfl, scaledDim_11_480]
  refine ⟨he, ?_⟩
  rw [he]
  norm_num [MIN_IMAGE_DIMENSION]

/-- C7 (amended): an EXIF-orientation read failure makes normalization
proceed with the image unmodified, and a decode/verify failure surfaces as
InvalidImage; but InvalidImage is NOT limited to decode/verify - EVERY
failure escaping the pipeline body surfaces as InvalidImage, and in
particular a resize failure is unguarded (the resize decision hands the
image straight to `Image.resize`), so it fails the request as InvalidImage
rather than degrading gracefully. -/
theorem claim_C7_amended_error_surface :
    (∀ (ops : PILOps) image e, ops.readOrientation image = .error e →
      normalize_exif_orientation ops image = image) ∧
    (∀ (ops : PILOps) e, ops.openImage = .error e →
      validate_image ops = .error ("Invalid or corrupted image: " ++ e)) ∧
    (∀ (ops : PILOps) e, validate_image_body ops = .error e →
      validate_image ops = .error ("Invalid or corrupted image: " ++ e)) ∧
    (∀ (ops : PILOps) image t,
      resize_target image.width image.height = some t →
      enforce_dimensions_pil ops image = ops.resize image t) := by
  refine ⟨?_, ?_, ?_, ?_⟩
  · intro ops image e he
    unfold normalize_exif_orientation
    rw [he]
  · intro ops e he
    unfold validate_image validate_image_body
    rw [he]
  · intro ops e he
    unfold validate_image
    rw [he]
  · intro ops image t ht
    unfold enforce_dimensions_pil
    rw [ht]

/-- Witness for C7: an EXIF read failure leaves the image unmodified, and
a decode failure surfaces as InvalidImage. -/
theorem claim_C7_amended_error_surface_witness :
    normalize_exif_orientation
      ⟨.ok ⟨10, 20, "RGB", fun _ _ => 0⟩,
        fun _ => .error "exif parse error", fun i _ => .ok i⟩
      ⟨10, 20, "RGB", fun _ _ => 0⟩ = ⟨10, 20, "RGB", fun _ _ => 0⟩ ∧
    validate_image
      ⟨.error "cannot identify image file",
        fun _ => .ok none, fun i _ => .ok i⟩ =
      .error ("Invalid or corrupted image: cannot identify image file") := by
  constructor
  · exact claim_C7_amended_error_surface.1 _ _ "exif parse error" rfl
  · exact claim_C7_amended_error_surface.2.1 _ "cannot identify image file" rfl

/-- C7 counterexample: a failing resize does not degrade gracefully - on a
100 x 100 image (which triggers the upscale resize), a resize error makes
`validate_image` fail the request with InvalidImage, refuting both "only
decode/verify exceptions surface as InvalidImage" and "a resize failure
degrades gracefully". -/
theorem claim_C7_counterexample :
    validate_image
      ⟨.ok ⟨100, 100, "RGB", fun _ _ => 0⟩,
        fun _ => .ok none, fun _ _ => .error "resize failed"⟩ =
      .error ("Invalid or corrupted image: resize failed") := by
  have ht : resize_target 100 100 =
      some (scaledDim 100 MIN_IMAGE_DIMENSION 100,
        scaledDim 100 MIN_IMAGE_DIMENSION 100) := by
    simp only [resize_target]
    rw [min_self, if_pos (by norm_num [MIN_IMAGE_DIMENSION])]
  exact validate_image_resize_error _ ⟨100, 100, "RGB", fun _ _ => 0⟩
    "resize failed" _ rfl rfl rfl ht rfl

/-- C8: the orientation map applies exactly these transforms: 1 identity;
2 horizontal flip; 3 180-degree rotation with identical dimensions;
4 vertical flip; 5 horizontal flip then ROTATE_90 (90 degrees
counter-clockwise), which on the pixel domain equals rotating 90 degrees
clockwise and then flipping horizontally - a composition of a horizontal
flip and a 90-degree clockwise rotation, the diagonal transpose;
6 ROTATE_270, i.e. 90 degrees clockwise, with width and height swapped;
7 horizontal flip then ROTATE_270; 8 ROTATE_90, i.e. 90 degrees
counter-clockwise. -/
theorem claim_C8_exif_orientation_map (I : Img) :
    apply_orientation 1 I = I ∧
    apply_orientation 2 I = flip_left_right I ∧
    (apply_orientation 3 I = rotate_180 I ∧
      (apply_orientation 3 I).width = I.width ∧
      (apply_orientation 3 I).height = I.height ∧
      (∀ x y, x < I.width → y < I.height →
        (apply_orientation 3 I).pix x y =
          I.pix (I.width - 1 - x) (I.height - 1 - y))) ∧
    apply_orientation 4 I = flip_top_bottom I ∧
    (apply_orientation 5 I = rotate_90 (flip_left_right I) ∧
      (apply_orientation 5 I).width = I.height ∧
      (apply_orientation 5 I).height = I.width ∧
      (∀ x y, x < I.height → y < I.width →
        (apply_orientation 5 I).pix x y = I.pix y x ∧
        (flip_left_right (rotate_270 I)).pix x y = I.pix y x)) ∧
    (apply_orientation 6 I = rotate_270 I ∧
      (apply_orientation 6 I).width = I.height ∧
      (apply_orientation 6 I).height = I.width) ∧
    apply_orientation 7 I = rotate_270 (flip_left_right I) ∧
    apply_orientation 8 I = rotate_90 I := by
  refine ⟨rfl, rfl, ⟨rfl, rfl, rfl, ?_⟩, rfl, ⟨rfl, rfl, rfl, ?_⟩,
    ⟨rfl, rfl, rfl⟩, rfl, rfl⟩
  · intro x y _ _
    rfl
  · intro x y hx hy
    constructor
    · show I.pix (I.width - 1 - (I.width - 1 - y)) x = I.pix y x
      congr 1
      omega
    · show I.pix y (I.height - 1 - (I.height - 1 - x)) = I.pix y x
      congr 1
      omega

/-- Witness for C8 on a concrete 2 x 3 image: orientation 5 transposes the
pixel grid, orientation 6 swaps the dimensions, orientation 3 keeps them. -/
theorem claim_C8_exif_orientation_map_witness :
    ((0:ℕ) < 3 ∧ (1:ℕ) < 2) ∧
    (apply_orientation 5 ⟨2, 3, "RGB", fun x y => x + 10 * y⟩).pix 0 1 = 1 ∧
    (apply_orientation 6 ⟨2, 3, "RGB", fun x y => x + 10 * y⟩).width = 3 ∧
    (apply_orientation 3 ⟨2, 3, "RGB", fun x y => x + 10 * y⟩).width = 2 := by
  have h := claim_C8_exif_orientation_map ⟨2, 3, "RGB", fun x y => x + 10 * y⟩
  refine ⟨⟨by norm_num, by norm_num⟩, ?_, ?_, ?_⟩
  · have h5 := (h.2.2.2.2.1).2.2.2 0 1 (by norm_num) (by norm_num)
    rw [h5.1]
  · exact (h.2.2.2.2.2.1).2.1
  · exact (h.2.2.1).2.1

/-- C9 (amended): download_image fails on a timeout and on every non-2xx
HTTP status; a 2xx response returns its body bytes regardless of the
content type - a non-image content type only logs a warning, it does not
fail the download. -/
theorem claim_C9_amended_download (r : HttpResult) :
    (r = .timeout → download_image r = .error .timeoutErr) ∧
    (∀ status_code content_type content,
      r = .response status_code content_type content →
      (¬(200 ≤ status_code ∧ status_code < 300) →
        download_image r = .error (.httpStatusErr status_code)) ∧
      (200 ≤ status_code ∧ status_code < 300 →
        download_image r = .ok content)) := by
  refine ⟨?_, ?_⟩
  · intro h
    subst h
    rfl
  · intro status_code content_type content h
    subst h
    constructor
    · intro hc
      simp only [download_image]
      rw [if_neg hc]
    · intro hc
      simp only [download_image]
      rw [if_pos hc]

/-- Witness for C9: a 404 fails with the HTTP status error; a timeout
fails with the timeout error. -/
theorem claim_C9_amended_download_witness :
    download_image (.response 404 "image/png" []) =
      .error (.httpStatusErr 404) ∧
    download_image .timeout = .error .timeoutErr := by
  constructor
  · exact ((claim_C9_amended_download _).2 404 "image/png" [] rfl).1
      (by norm_num)
  · exact (claim_C9_amended_download .timeout).1 rfl

/-- C9 counterexample: a 200 response carrying non-image content
(text/html bytes) is returned successfully - the claim that download_image
fails on a non-image response is false; the code only logs a warning and
the downstream pipeline executes. -/
theorem claim_C9_counterexample :
    download_image (.response 200 "text/html" [60, 104, 116]) =
      .ok [60, 104, 116] := by
  simp only [download_image]
  rw [if_pos (by norm_num)]

end VaraWeb
